import Mathlib

/-!
Verification of the masked-convolution / mask-interpolation core of the
`pymsastro` repository (`pymsastro/convolution/convolution_with_mask.py` and
`pymsastro/convolution/interpolate_mask.py`).

Numeric values are modelled by rationals (`ℚ`); the IEEE value NaN, which the
code stores into a cell when the local weight sum `div` is zero, is modelled
by `none` in an `Option ℚ` cell.  An n-dimensional numpy array is modelled by
nested lists together with its numpy shape; the numpy exceptions raised during
validation are modelled by an error enumeration, one constructor per distinct
validation failure.
-/

/-- The distinct validation failures raised by `convolve_with_mask` and
`interpolate_mask` (each is a `ValueError` in the source, distinguished by its
message; the spec names them as shown in the constructor names). -/
inductive PyErr where
  | shapeMismatch
  | dimensionMismatch
  | evenKernelShape
  | unsupportedDimension
  deriving DecidableEq, Repr

/-- An n-dimensional numpy value array, n ∈ {0, …, 4} (ranks 0 and 4 occur only
in rejected calls; the computational routines cover ranks 1–3). -/
inductive NDArr where
  | d0 (x : ℚ)
  | d1 (a : List ℚ)
  | d2 (a : List (List ℚ))
  | d3 (a : List (List (List ℚ)))
  | d4 (a : List (List (List (List ℚ))))
  deriving DecidableEq, Repr

/-- An n-dimensional boolean mask array. -/
inductive NDMask where
  | m0 (x : Bool)
  | m1 (m : List Bool)
  | m2 (m : List (List Bool))
  | m3 (m : List (List (List Bool)))
  | m4 (m : List (List (List (List Bool))))
  deriving DecidableEq, Repr

/-- An n-dimensional result array; cells are `Option ℚ` with `none` = NaN.
Only ranks 1–3 are produced (by the dispatched computational routines). -/
inductive NDRes where
  | r1 (a : List (Option ℚ))
  | r2 (a : List (List (Option ℚ)))
  | r3 (a : List (List (List (Option ℚ))))
  deriving DecidableEq, Repr

/-- numpy `array.shape`: outer length, then the lengths along the remaining
axes (read off the leading slice, as numpy's rectangular layout guarantees). -/
def NDArr.shape : NDArr → List ℕ
  | .d0 _ => []
  | .d1 a => [a.length]
  | .d2 a => [a.length, (a.headD []).length]
  | .d3 a => [a.length, (a.headD []).length, ((a.headD []).headD []).length]
  | .d4 a => [a.length, (a.headD []).length, ((a.headD []).headD []).length,
      (((a.headD []).headD []).headD []).length]

/-- numpy `array.ndim` = `len(array.shape)`. -/
def NDArr.ndim (a : NDArr) : ℕ := a.shape.length

/-- numpy `mask.shape`. -/
def NDMask.shape : NDMask → List ℕ
  | .m0 _ => []
  | .m1 m => [m.length]
  | .m2 m => [m.length, (m.headD []).length]
  | .m3 m => [m.length, (m.headD []).length, ((m.headD []).headD []).length]
  | .m4 m => [m.length, (m.headD []).length, ((m.headD []).headD []).length,
      (((m.headD []).headD []).headD []).length]

/-- `np.zeros(array.shape, dtype=np.bool_)`: the all-false mask of the
array's shape, synthesized when no mask is passed. -/
def zerosMask : NDArr → NDMask
  | .d0 _ => .m0 false
  | .d1 a => .m1 (a.map fun _ => false)
  | .d2 a => .m2 (a.map fun r => r.map fun _ => false)
  | .d3 a => .m3 (a.map fun p => p.map fun r => r.map fun _ => false)
  | .d4 a => .m4 (a.map fun q => q.map fun p => p.map fun r => r.map fun _ => false)

/-- `np.sum(kernel)`: the sum of every cell of the kernel. -/
def NDArr.total : NDArr → ℚ
  | .d0 x => x
  | .d1 a => a.sum
  | .d2 a => (a.map List.sum).sum
  | .d3 a => (a.map fun p => (p.map List.sum).sum).sum
  | .d4 a => (a.map fun q => (q.map fun p => (p.map List.sum).sum).sum).sum

/-- numpy shape of a result array. -/
def NDRes.shape : NDRes → List ℕ
  | .r1 a => [a.length]
  | .r2 a => [a.length, (a.headD []).length]
  | .r3 a => [a.length, (a.headD []).length, ((a.headD []).headD []).length]

/-- `kernel_sum * conv` (numpy broadcast): multiply every cell of a result by
a scalar; a NaN cell stays NaN. -/
def scaleRes (c : ℚ) : NDRes → NDRes
  | .r1 a => .r1 (a.map (Option.map fun x => c * x))
  | .r2 a => .r2 (a.map fun r => r.map (Option.map fun x => c * x))
  | .r3 a => .r3 (a.map fun p => p.map fun r => r.map (Option.map fun x => c * x))

/-- Body of the `for i` loop of `_convolve_with_mask_1d`: the value written to
`result[i]`.  Mirrors the source: `wkx = nkx // 2`, window bounds
`iimin = max(i - wkx, 0)` (ℕ-subtraction realizes the `max` with 0) and
`iimax = min(i + wkx + 1, nx)`, accumulation of `num`/`div` over the window
cells whose mask is 0, kernel index `wkx + ii - i`, and `num / div` with NaN
(`none`) when `div == 0`. -/
def convCell1 (image kernel : List ℚ) (mask : List Bool) (i : ℕ) : Option ℚ :=
  let wkx := kernel.length / 2
  let iimin := i - wkx
  let iimax := min (i + wkx + 1) image.length
  let nd := (List.range' iimin (iimax - iimin)).foldl
    (fun nd ii =>
      if mask.getD ii true = false then
        (nd.1 + kernel.getD (wkx + ii - i) 0 * image.getD ii 0,
         nd.2 + kernel.getD (wkx + ii - i) 0)
      else nd) ((0 : ℚ), (0 : ℚ))
  if nd.2 = 0 then none else some (nd.1 / nd.2)

/-- `_convolve_with_mask_1d`: one output cell per index `i < nx`. -/
def convolve_with_mask_1d (image kernel : List ℚ) (mask : List Bool) :
    List (Option ℚ) :=
  (List.range image.length).map (convCell1 image kernel mask)

/-- Body of the `for i, for j` loops of `_convolve_with_mask_2d`: the value
written to `result[i, j]`.  `ny = image.shape[1]` is the length of row 0. -/
def convCell2 (image kernel : List (List ℚ)) (mask : List (List Bool))
    (i j : ℕ) : Option ℚ :=
  let wkx := kernel.length / 2
  let wky := (kernel.headD []).length / 2
  let iimin := i - wkx
  let iimax := min (i + wkx + 1) image.length
  let jjmin := j - wky
  let jjmax := min (j + wky + 1) (image.headD []).length
  let nd := (List.range' iimin (iimax - iimin)).foldl
    (fun nd0 ii =>
      (List.range' jjmin (jjmax - jjmin)).foldl
        (fun nd1 jj =>
          if (mask.getD ii []).getD jj true = false then
            (nd1.1 + (kernel.getD (wkx + ii - i) []).getD (wky + jj - j) 0 *
               (image.getD ii []).getD jj 0,
             nd1.2 + (kernel.getD (wkx + ii - i) []).getD (wky + jj - j) 0)
          else nd1) nd0) ((0 : ℚ), (0 : ℚ))
  if nd.2 = 0 then none else some (nd.1 / nd.2)

/-- `_convolve_with_mask_2d`: one output cell per `(i, j)`. -/
def convolve_with_mask_2d (image kernel : List (List ℚ))
    (mask : List (List Bool)) : List (List (Option ℚ)) :=
  (List.range image.length).map fun i =>
    (List.range (image.headD []).length).map (convCell2 image kernel mask i)

/-- Body of the `for i, for j, for k` loops of `_convolve_with_mask_3d`. -/
def convCell3 (image kernel : List (List (List ℚ)))
    (mask : List (List (List Bool))) (i j k : ℕ) : Option ℚ :=
  let wkx := kernel.length / 2
  let wky := (kernel.headD []).length / 2
  let wkz := ((kernel.headD []).headD []).length / 2
  let iimin := i - wkx
  let iimax := min (i + wkx + 1) image.length
  let jjmin := j - wky
  let jjmax := min (j + wky + 1) (image.headD []).length
  let kkmin := k - wkz
  let kkmax := min (k + wkz + 1) ((image.headD []).headD []).length
  let nd := (List.range' iimin (iimax - iimin)).foldl
    (fun nd0 ii =>
      (List.range' jjmin (jjmax - jjmin)).foldl
        (fun nd1 jj =>
          (List.range' kkmin (kkmax - kkmin)).foldl
            (fun nd2 kk =>
              if ((mask.getD ii []).getD jj []).getD kk true = false then
                (nd2.1 + ((kernel.getD (wkx + ii - i) []).getD (wky + jj - j)
                     []).getD (wkz + kk - k) 0 *
                   ((image.getD ii []).getD jj []).getD kk 0,
                 nd2.2 + ((kernel.getD (wkx + ii - i) []).getD (wky + jj - j)
                     []).getD (wkz + kk - k) 0)
              else nd2) nd1) nd0) ((0 : ℚ), (0 : ℚ))
  if nd.2 = 0 then none else some (nd.1 / nd.2)

/-- `_convolve_with_mask_3d`: one output cell per `(i, j, k)`. -/
def convolve_with_mask_3d (image kernel : List (List (List ℚ)))
    (mask : List (List (List Bool))) : List (List (List (Option ℚ))) :=
  (List.range image.length).map fun i =>
    (List.range (image.headD []).length).map fun j =>
      (List.range ((image.headD []).headD []).length).map
        (convCell3 image kernel mask i j)

/-- Body of the `for i, for j` loops of `_interpolate_mask_2d`: if
`mask[i, j] == 1` the cell is recomputed by exactly the window scan of
`_convolve_with_mask_2d` (the masked branch of the source is textually that
loop body), otherwise `result[i, j] = image[i, j]`. -/
def interpCell2 (image kernel : List (List ℚ)) (mask : List (List Bool))
    (i j : ℕ) : Option ℚ :=
  if (mask.getD i []).getD j true = true then
    convCell2 image kernel mask i j
  else
    some ((image.getD i []).getD j 0)

/-- `_interpolate_mask_2d`: one output cell per `(i, j)`. -/
def interpolate_mask_2d (image kernel : List (List ℚ))
    (mask : List (List Bool)) : List (List (Option ℚ)) :=
  (List.range image.length).map fun i =>
    (List.range (image.headD []).length).map (interpCell2 image kernel mask i)

/-- Shared validation of `convolve_with_mask` / `interpolate_mask`, in source
order: if an explicit mask is given its shape must equal the array's
(`ValueError: Array and Mask must have the same shape.`), otherwise an
all-false mask is synthesized with **no** shape check; then
`kernel.ndim != array.ndim` (`… same number of dimensions.`); then any even
kernel axis (`Kernel must have an odd shape`). Returns the effective mask. -/
def validateInputs (array kernel : NDArr) (mask : Option NDMask) :
    Except PyErr NDMask :=
  match mask with
  | none =>
      if kernel.ndim ≠ array.ndim then .error .dimensionMismatch
      else if (kernel.shape.any fun s => s % 2 = 0) then .error .evenKernelShape
      else .ok (zerosMask array)
  | some m =>
      if m.shape ≠ array.shape then .error .shapeMismatch
      else if kernel.ndim ≠ array.ndim then .error .dimensionMismatch
      else if (kernel.shape.any fun s => s % 2 = 0) then .error .evenKernelShape
      else .ok m

/-- `convolve_with_mask(array, kernel, mask, rescale_kernel)`: validation,
`kernel_sum = np.sum(kernel)`, dispatch on `array.ndim` to the 1d/2d/3d
routine (`ValueError: Array must have 1, 2 or 3 dimensions.` otherwise), and
final multiplication by `kernel_sum` when `rescale_kernel` is true. -/
def convolve_with_mask (array kernel : NDArr) (mask : Option NDMask)
    (rescale_kernel : Bool) : Except PyErr NDRes :=
  match validateInputs array kernel mask with
  | .error e => .error e
  | .ok mask0 =>
      let kernel_sum := kernel.total
      let conv : Option NDRes :=
        match array, kernel, mask0 with
        | .d1 a, .d1 k, .m1 m => some (.r1 (convolve_with_mask_1d a k m))
        | .d2 a, .d2 k, .m2 m => some (.r2 (convolve_with_mask_2d a k m))
        | .d3 a, .d3 k, .m3 m => some (.r3 (convolve_with_mask_3d a k m))
        | _, _, _ => none
      match conv with
      | none => .error .unsupportedDimension
      | some c => .ok (if rescale_kernel then scaleRes kernel_sum c else c)

/-- `interpolate_mask(array, kernel, mask)`: same validation, but dispatch is
defined only for `ndim == 2` (`ValueError: Array must have 2 dimensions.`
otherwise) and there is no rescale step. -/
def interpolate_mask (array kernel : NDArr) (mask : Option NDMask) :
    Except PyErr NDRes :=
  match validateInputs array kernel mask with
  | .error e => .error e
  | .ok mask0 =>
      match array, kernel, mask0 with
      | .d2 a, .d2 k, .m2 m => .ok (.r2 (interpolate_mask_2d a k m))
      | _, _, _ => .error .unsupportedDimension

/-!
Spec-side definitions.  These are written from the specification's own words
(§4.2/§4.3): the per-axis clipped window `[max(idx-w, 0), min(idx+w+1, n))`,
the set of its cells whose mask value is false, and `num`/`div` as sums of
`kernel_weight(relative_offset) * value` resp. `kernel_weight` over that set,
with NaN when `div = 0`.  They are to be compared with the loop-accumulation
definitions above, which were translated from the source.
-/

/-- Spec, 1-D: cells of the clipped window around `idx` that are not masked
(ℕ-subtraction realizes `max(idx - w, 0)`). -/
def specWin1 (image kernel : List ℚ) (mask : List Bool) (idx : ℕ) : Finset ℕ :=
  let w := kernel.length / 2
  (Finset.Ico (idx - w) (min (idx + w + 1) image.length)).filter
    fun c => mask.getD c true = false

/-- Spec, 1-D: kernel weight of a window cell `c`, kernel center aligned with
`idx` (kernel index `w + c - idx`). -/
def specKW1 (kernel : List ℚ) (idx c : ℕ) : ℚ :=
  kernel.getD (kernel.length / 2 + c - idx) 0

/-- Spec, 1-D: `div` = sum of kernel weights over unmasked window cells. -/
def specDiv1 (image kernel : List ℚ) (mask : List Bool) (idx : ℕ) : ℚ :=
  ∑ c in specWin1 image kernel mask idx, specKW1 kernel idx c

/-- Spec, 1-D: `num` = weighted sum of values over unmasked window cells. -/
def specNum1 (image kernel : List ℚ) (mask : List Bool) (idx : ℕ) : ℚ :=
  ∑ c in specWin1 image kernel mask idx, specKW1 kernel idx c * image.getD c 0

/-- Spec, 1-D: output cell = `num / div`, NaN (`none`) when `div = 0`. -/
def specCell1 (image kernel : List ℚ) (mask : List Bool) (idx : ℕ) : Option ℚ :=
  if specDiv1 image kernel mask idx = 0 then none
  else some (specNum1 image kernel mask idx / specDiv1 image kernel mask idx)

/-- Spec, 2-D: unmasked cells of the clipped product window around `(i, j)`. -/
def specWin2 (image kernel : List (List ℚ)) (mask : List (List Bool))
    (i j : ℕ) : Finset (ℕ × ℕ) :=
  let wx := kernel.length / 2
  let wy := (kernel.headD []).length / 2
  ((Finset.Ico (i - wx) (min (i + wx + 1) image.length)) ×ˢ
      (Finset.Ico (j - wy) (min (j + wy + 1) (image.headD []).length))).filter
    fun c => (mask.getD c.1 []).getD c.2 true = false

/-- Spec, 2-D: kernel weight of a window cell. -/
def specKW2 (kernel : List (List ℚ)) (i j : ℕ) (c : ℕ × ℕ) : ℚ :=
  (kernel.getD (kernel.length / 2 + c.1 - i) []).getD
    ((kernel.headD []).length / 2 + c.2 - j) 0

/-- Spec, 2-D: `div`. -/
def specDiv2 (image kernel : List (List ℚ)) (mask : List (List Bool))
    (i j : ℕ) : ℚ :=
  ∑ c in specWin2 image kernel mask i j, specKW2 kernel i j c

/-- Spec, 2-D: `num`. -/
def specNum2 (image kernel : List (List ℚ)) (mask : List (List Bool))
    (i j : ℕ) : ℚ :=
  ∑ c in specWin2 image kernel mask i j,
    specKW2 kernel i j c * (image.getD c.1 []).getD c.2 0

/-- Spec, 2-D: output cell. -/
def specCell2 (image kernel : List (List ℚ)) (mask : List (List Bool))
    (i j : ℕ) : Option ℚ :=
  if specDiv2 image kernel mask i j = 0 then none
  else some (specNum2 image kernel mask i j / specDiv2 image kernel mask i j)

/-- Spec, 3-D: unmasked cells of the clipped product window around
`(i, j, k)`. -/
def specWin3 (image kernel : List (List (List ℚ)))
    (mask : List (List (List Bool))) (i j k : ℕ) : Finset (ℕ × ℕ × ℕ) :=
  let wx := kernel.length / 2
  let wy := (kernel.headD []).length / 2
  let wz := ((kernel.headD []).headD []).length / 2
  ((Finset.Ico (i - wx) (min (i + wx + 1) image.length)) ×ˢ
      ((Finset.Ico (j - wy) (min (j + wy + 1) (image.headD []).length)) ×ˢ
        (Finset.Ico (k - wz)
          (min (k + wz + 1) ((image.headD []).headD []).length)))).filter
    fun c => ((mask.getD c.1 []).getD c.2.1 []).getD c.2.2 true = false

/-- Spec, 3-D: kernel weight of a window cell. -/
def specKW3 (kernel : List (List (List ℚ))) (i j k : ℕ) (c : ℕ × ℕ × ℕ) : ℚ :=
  ((kernel.getD (kernel.length / 2 + c.1 - i) []).getD
      ((kernel.headD []).length / 2 + c.2.1 - j) []).getD
    (((kernel.headD []).headD []).length / 2 + c.2.2 - k) 0

/-- Spec, 3-D: `div`. -/
def specDiv3 (image kernel : List (List (List ℚ)))
    (mask : List (List (List Bool))) (i j k : ℕ) : ℚ :=
  ∑ c in specWin3 image kernel mask i j k, specKW3 kernel i j k c

/-- Spec, 3-D: `num`. -/
def specNum3 (image kernel : List (List (List ℚ)))
    (mask : List (List (List Bool))) (i j k : ℕ) : ℚ :=
  ∑ c in specWin3 image kernel mask i j k,
    specKW3 kernel i j k c * ((image.getD c.1 []).getD c.2.1 []).getD c.2.2 0

/-- Spec, 3-D: output cell. -/
def specCell3 (image kernel : List (List (List ℚ)))
    (mask : List (List (List Bool))) (i j k : ℕ) : Option ℚ :=
  if specDiv3 image kernel mask i j k = 0 then none
  else some (specNum3 image kernel mask i j k / specDiv3 image kernel mask i j k)

/-- Spec §4.3: interpolation output cell: pass-through where the mask is
false, the §4.2 windowed average where it is true. -/
def specInterpCell2 (image kernel : List (List ℚ)) (mask : List (List Bool))
    (i j : ℕ) : Option ℚ :=
  if (mask.getD i []).getD j true = true then specCell2 image kernel mask i j
  else some ((image.getD i []).getD j 0)

/-!
Bridge lemmas: the `foldl` accumulations of the translated loops equal the
window sums of the spec formalization.
-/

/-- Sum of `f` over `List.range n` as a `Finset.range` sum. -/
lemma sum_map_range (f : ℕ → ℚ) (n : ℕ) :
    ((List.range n).map f).sum = ∑ i in Finset.range n, f i := by
  induction n with
  | zero => simp
  | succ m ih =>
      rw [List.range_succ, Finset.sum_range_succ, List.map_append,
        List.sum_append, ih]
      simp

/-- Sum of `f` over `List.range' lo n` as a `Finset.Ico` sum. -/
lemma sum_map_range' (f : ℕ → ℚ) (lo n : ℕ) :
    ((List.range' lo n).map f).sum = ∑ c in Finset.Ico lo (lo + n), f c := by
  rw [List.range'_eq_map_range, List.map_map, sum_map_range,
    Finset.sum_Ico_eq_sum_range]
  simp [Function.comp]

/-- A `Finset.Ico` sum as a sum over the corresponding `List.range'`. -/
lemma sum_Ico_list (h : ℕ → ℚ) (lo hi : ℕ) :
    ∑ c in Finset.Ico lo hi, h c = ((List.range' lo (hi - lo)).map h).sum := by
  rcases le_total lo hi with hle | hle
  · rw [sum_map_range', Nat.add_sub_cancel' hle]
  · rw [Nat.sub_eq_zero_of_le hle, Finset.Ico_eq_empty (by omega)]
    simp

/-- A guarded two-accumulator loop is a pair of guarded sums. -/
lemma foldl_guard_pair (L : List ℕ) (p : ℕ → Prop) [DecidablePred p]
    (f g : ℕ → ℚ) (ab : ℚ × ℚ) :
    L.foldl (fun nd ii => if p ii then (nd.1 + f ii, nd.2 + g ii) else nd) ab
      = (ab.1 + (L.map fun x => if p x then f x else 0).sum,
         ab.2 + (L.map fun x => if p x then g x else 0).sum) := by
  induction L generalizing ab with
  | nil => simp
  | cons x xs ih => by_cases h : p x <;> simp [h, ih, add_assoc]

/-- An unguarded two-accumulator loop is a pair of sums. -/
lemma foldl_pair (L : List ℕ) (f g : ℕ → ℚ) (ab : ℚ × ℚ) :
    L.foldl (fun nd ii => (nd.1 + f ii, nd.2 + g ii)) ab
      = (ab.1 + (L.map f).sum, ab.2 + (L.map g).sum) := by
  induction L generalizing ab with
  | nil => simp
  | cons x xs ih => simp [ih, add_assoc]

/-- The 1-D loop body computes the spec's windowed masked average. -/
lemma convCell1_eq_specCell1 (image kernel : List ℚ) (mask : List Bool)
    (i : ℕ) : convCell1 image kernel mask i = specCell1 image kernel mask i := by
  simp only [convCell1, specCell1, specDiv1, specNum1, specWin1, specKW1]
  rw [foldl_guard_pair]
  simp only [Finset.sum_filter, sum_Ico_list, zero_add]

/-- The 2-D loop body computes the spec's windowed masked average. -/
lemma convCell2_eq_specCell2 (image kernel : List (List ℚ))
    (mask : List (List Bool)) (i j : ℕ) :
    convCell2 image kernel mask i j = specCell2 image kernel mask i j := by
  simp only [convCell2, specCell2, specDiv2, specNum2, specWin2, specKW2]
  simp only [foldl_guard_pair]
  rw [foldl_pair]
  simp only [Finset.sum_filter, Finset.sum_product, sum_Ico_list, zero_add]

/-- The 3-D loop body computes the spec's windowed masked average. -/
lemma convCell3_eq_specCell3 (image kernel : List (List (List ℚ)))
    (mask : List (List (List Bool))) (i j k : ℕ) :
    convCell3 image kernel mask i j k = specCell3 image kernel mask i j k := by
  simp only [convCell3, specCell3, specDiv3, specNum3, specWin3, specKW3]
  simp only [foldl_guard_pair, foldl_pair]
  simp only [Finset.sum_filter, Finset.sum_product, sum_Ico_list, zero_add]

/-- The interpolation loop body computes the spec's §4.3 per-cell rule. -/
lemma interpCell2_eq_specInterpCell2 (image kernel : List (List ℚ))
    (mask : List (List Bool)) (i j : ℕ) :
    interpCell2 image kernel mask i j = specInterpCell2 image kernel mask i j := by
  simp only [interpCell2, specInterpCell2, convCell2_eq_specCell2]

/-- Validation accepts a 1-D call whose mask length matches and whose kernel
length is odd. -/
lemma validate_d1 (a k : List ℚ) (q : List Bool) (hq : q.length = a.length)
    (hk : k.length % 2 = 1) :
    validateInputs (.d1 a) (.d1 k) (some (.m1 q)) = .ok (.m1 q) := by
  have h1 : ¬ k.length % 2 = 0 := by omega
  simp [validateInputs, NDMask.shape, NDArr.shape, NDArr.ndim, hq, h1]

/-- Validation accepts a 2-D call with matching mask shape and odd kernel
axes. -/
lemma validate_d2 (a k : List (List ℚ)) (q : List (List Bool))
    (hq1 : q.length = a.length) (hq2 : (q.headD []).length = (a.headD []).length)
    (hk1 : k.length % 2 = 1) (hk2 : (k.headD []).length % 2 = 1) :
    validateInputs (.d2 a) (.d2 k) (some (.m2 q)) = .ok (.m2 q) := by
  simp only [List.headD_eq_head?] at hq2 hk2
  have hshape : ¬ (NDMask.shape (.m2 q) ≠ NDArr.shape (.d2 a)) := by
    simp [NDMask.shape, NDArr.shape, hq1, hq2]
  have hnd : ¬ (NDArr.ndim (.d2 k) ≠ NDArr.ndim (.d2 a)) := by
    simp [NDArr.ndim, NDArr.shape]
  have hev : ¬ ((NDArr.shape (.d2 k)).any fun s => s % 2 = 0) = true := by
    simp [NDArr.shape]
    omega
  rw [validateInputs, if_neg hshape, if_neg hnd, if_neg hev]

/-- Validation accepts a 3-D call with matching mask shape and odd kernel
axes. -/
lemma validate_d3 (a k : List (List (List ℚ))) (q : List (List (List Bool)))
    (hq1 : q.length = a.length)
    (hq2 : (q.headD []).length = (a.headD []).length)
    (hq3 : ((q.headD []).headD []).length = ((a.headD []).headD []).length)
    (hk1 : k.length % 2 = 1) (hk2 : (k.headD []).length % 2 = 1)
    (hk3 : ((k.headD []).headD []).length % 2 = 1) :
    validateInputs (.d3 a) (.d3 k) (some (.m3 q)) = .ok (.m3 q) := by
  simp only [List.headD_eq_head?] at hq2 hq3 hk2 hk3
  have hshape : ¬ (NDMask.shape (.m3 q) ≠ NDArr.shape (.d3 a)) := by
    simp [NDMask.shape, NDArr.shape, hq1, hq2, hq3]
  have hnd : ¬ (NDArr.ndim (.d3 k) ≠ NDArr.ndim (.d3 a)) := by
    simp [NDArr.ndim, NDArr.shape]
  have hev : ¬ ((NDArr.shape (.d3 k)).any fun s => s % 2 = 0) = true := by
    simp [NDArr.shape]
    omega
  rw [validateInputs, if_neg hshape, if_neg hnd, if_neg hev]

/-- A valid 1-D convolution call dispatches to `_convolve_with_mask_1d` and
rescales iff requested. -/
lemma convolve_d1_eq (a k : List ℚ) (q : List Bool) (r : Bool)
    (hq : q.length = a.length) (hk : k.length % 2 = 1) :
    convolve_with_mask (.d1 a) (.d1 k) (some (.m1 q)) r
      = .ok (if r then scaleRes k.sum (.r1 (convolve_with_mask_1d a k q))
          else .r1 (convolve_with_mask_1d a k q)) := by
  rw [convolve_with_mask, validate_d1 a k q hq hk]
  rfl

/-- A valid 2-D convolution call dispatches to `_convolve_with_mask_2d`. -/
lemma convolve_d2_eq (a k : List (List ℚ)) (q : List (List Bool)) (r : Bool)
    (hq1 : q.length = a.length) (hq2 : (q.headD []).length = (a.headD []).length)
    (hk1 : k.length % 2 = 1) (hk2 : (k.headD []).length % 2 = 1) :
    convolve_with_mask (.d2 a) (.d2 k) (some (.m2 q)) r
      = .ok (if r then
            scaleRes (NDArr.total (.d2 k)) (.r2 (convolve_with_mask_2d a k q))
          else .r2 (convolve_with_mask_2d a k q)) := by
  rw [convolve_with_mask, validate_d2 a k q hq1 hq2 hk1 hk2]

/-- A valid 3-D convolution call dispatches to `_convolve_with_mask_3d`. -/
lemma convolve_d3_eq (a k : List (List (List ℚ))) (q : List (List (List Bool)))
    (r : Bool) (hq1 : q.length = a.length)
    (hq2 : (q.headD []).length = (a.headD []).length)
    (hq3 : ((q.headD []).headD []).length = ((a.headD []).headD []).length)
    (hk1 : k.length % 2 = 1) (hk2 : (k.headD []).length % 2 = 1)
    (hk3 : ((k.headD []).headD []).length % 2 = 1) :
    convolve_with_mask (.d3 a) (.d3 k) (some (.m3 q)) r
      = .ok (if r then
            scaleRes (NDArr.total (.d3 k)) (.r3 (convolve_with_mask_3d a k q))
          else .r3 (convolve_with_mask_3d a k q)) := by
  rw [convolve_with_mask, validate_d3 a k q hq1 hq2 hq3 hk1 hk2 hk3]

/-- A valid 2-D interpolation call dispatches to `_interpolate_mask_2d`. -/
lemma interpolate_d2_eq (a k : List (List ℚ)) (q : List (List Bool))
    (hq1 : q.length = a.length) (hq2 : (q.headD []).length = (a.headD []).length)
    (hk1 : k.length % 2 = 1) (hk2 : (k.headD []).length % 2 = 1) :
    interpolate_mask (.d2 a) (.d2 k) (some (.m2 q))
      = .ok (.r2 (interpolate_mask_2d a k q)) := by
  rw [interpolate_mask, validate_d2 a k q hq1 hq2 hk1 hk2]

/-- C1: for every valid input (array with matching-shape mask and same-rank
kernel with odd axis lengths, rank ∈ {1,2,3}), `convolve_with_mask` with
`rescale_kernel = False` returns the array whose cell at each multi-index is
the spec's `num / div` over exactly the unmasked cells of the per-axis clipped
window `[max(idx-w, 0), min(idx+w+1, shape))`, with kernel index
`w + cell - idx`; out-of-grid cells are excluded, never padded or wrapped. -/
theorem claim_C1
    (a1 k1 : List ℚ) (q1 : List Bool)
    (hq1 : q1.length = a1.length) (hk1 : k1.length % 2 = 1)
    (a2 k2 : List (List ℚ)) (q2 : List (List Bool))
    (hq21 : q2.length = a2.length)
    (hq22 : (q2.headD []).length = (a2.headD []).length)
    (hk21 : k2.length % 2 = 1) (hk22 : (k2.headD []).length % 2 = 1)
    (a3 k3 : List (List (List ℚ))) (q3 : List (List (List Bool)))
    (hq31 : q3.length = a3.length)
    (hq32 : (q3.headD []).length = (a3.headD []).length)
    (hq33 : ((q3.headD []).headD []).length = ((a3.headD []).headD []).length)
    (hk31 : k3.length % 2 = 1) (hk32 : (k3.headD []).length % 2 = 1)
    (hk33 : ((k3.headD []).headD []).length % 2 = 1) :
    convolve_with_mask (.d1 a1) (.d1 k1) (some (.m1 q1)) false
        = .ok (.r1 ((List.range a1.length).map (specCell1 a1 k1 q1)))
      ∧ convolve_with_mask (.d2 a2) (.d2 k2) (some (.m2 q2)) false
        = .ok (.r2 ((List.range a2.length).map fun i =>
            (List.range (a2.headD []).length).map (specCell2 a2 k2 q2 i)))
      ∧ convolve_with_mask (.d3 a3) (.d3 k3) (some (.m3 q3)) false
        = .ok (.r3 ((List.range a3.length).map fun i =>
            (List.range (a3.headD []).length).map fun j =>
              (List.range ((a3.headD []).headD []).length).map
                (specCell3 a3 k3 q3 i j))) := by
  refine ⟨?_, ?_, ?_⟩
  · rw [convolve_d1_eq a1 k1 q1 false hq1 hk1]
    have h : convCell1 a1 k1 q1 = specCell1 a1 k1 q1 :=
      funext fun i => convCell1_eq_specCell1 a1 k1 q1 i
    simp [convolve_with_mask_1d, h]
  · rw [convolve_d2_eq a2 k2 q2 false hq21 hq22 hk21 hk22]
    have h : convCell2 a2 k2 q2 = specCell2 a2 k2 q2 :=
      funext fun i => funext fun j => convCell2_eq_specCell2 a2 k2 q2 i j
    simp [convolve_with_mask_2d, h]
  · rw [convolve_d3_eq a3 k3 q3 false hq31 hq32 hq33 hk31 hk32 hk33]
    have h : convCell3 a3 k3 q3 = specCell3 a3 k3 q3 :=
      funext fun i => funext fun j => funext fun k =>
        convCell3_eq_specCell3 a3 k3 q3 i j k
    simp [convolve_with_mask_3d, h]

/-- C5: for every input, `convolve_with_mask` with `rescale_kernel = True`
equals `kernel_sum` times the `rescale_kernel = False` result, `kernel_sum`
being the sum of all kernel cells computed once before dispatch (validation
failures are identical on both sides). -/
theorem claim_C5 (array kernel : NDArr) (mask : Option NDMask) :
    convolve_with_mask array kernel mask true
      = Except.map (scaleRes kernel.total)
          (convolve_with_mask array kernel mask false) := by
  rw [convolve_with_mask, convolve_with_mask]
  cases hv : validateInputs array kernel mask with
  | error e => rfl
  | ok m0 => cases array <;> cases kernel <;> cases m0 <;> rfl

/-- Observation: cell `i` of a rank-1 call result (`none` when the call failed
or the index is out of range). -/
def outCell1 (e : Except PyErr NDRes) (i : ℕ) : Option ℚ :=
  match e with
  | .ok (.r1 a) => a.getD i none
  | _ => none

/-- Observation: cell `(i, j)` of a rank-2 call result. -/
def outCell2 (e : Except PyErr NDRes) (i j : ℕ) : Option ℚ :=
  match e with
  | .ok (.r2 a) => (a.getD i []).getD j none
  | _ => none

/-- Observation: cell `(i, j, k)` of a rank-3 call result. -/
def outCell3 (e : Except PyErr NDRes) (i j k : ℕ) : Option ℚ :=
  match e with
  | .ok (.r3 a) => ((a.getD i []).getD j []).getD k none
  | _ => none

/-- `getD` of a map over `List.range` at an in-range index. -/
lemma getD_map_range {α : Type} (f : ℕ → α) (n i : ℕ) (h : i < n) (d : α) :
    ((List.range n).map f).getD i d = f i := by
  rw [List.getD_eq_getElem?_getD, List.getElem?_map, List.getElem?_range h]
  rfl

/-- Spec, 1-D: the full clipped window (before removing masked cells). -/
def specBox1 (image kernel : List ℚ) (idx : ℕ) : Finset ℕ :=
  Finset.Ico (idx - kernel.length / 2)
    (min (idx + kernel.length / 2 + 1) image.length)

/-- Spec, 2-D: the full clipped product window. -/
def specBox2 (image kernel : List (List ℚ)) (i j : ℕ) : Finset (ℕ × ℕ) :=
  (Finset.Ico (i - kernel.length / 2)
      (min (i + kernel.length / 2 + 1) image.length)) ×ˢ
    (Finset.Ico (j - (kernel.headD []).length / 2)
      (min (j + (kernel.headD []).length / 2 + 1) (image.headD []).length))

/-- Spec, 3-D: the full clipped product window. -/
def specBox3 (image kernel : List (List (List ℚ))) (i j k : ℕ) :
    Finset (ℕ × ℕ × ℕ) :=
  (Finset.Ico (i - kernel.length / 2)
      (min (i + kernel.length / 2 + 1) image.length)) ×ˢ
    ((Finset.Ico (j - (kernel.headD []).length / 2)
        (min (j + (kernel.headD []).length / 2 + 1) (image.headD []).length)) ×ˢ
      (Finset.Ico (k - ((kernel.headD []).headD []).length / 2)
        (min (k + ((kernel.headD []).headD []).length / 2 + 1)
          ((image.headD []).headD []).length)))

/-- The unmasked window is the clipped window filtered by the mask (1-D). -/
lemma specWin1_eq_filter (image kernel : List ℚ) (mask : List Bool) (idx : ℕ) :
    specWin1 image kernel mask idx
      = (specBox1 image kernel idx).filter fun c => mask.getD c true = false := rfl

/-- The unmasked window is the clipped window filtered by the mask (2-D). -/
lemma specWin2_eq_filter (image kernel : List (List ℚ))
    (mask : List (List Bool)) (i j : ℕ) :
    specWin2 image kernel mask i j
      = (specBox2 image kernel i j).filter
          fun c => (mask.getD c.1 []).getD c.2 true = false := rfl

/-- The unmasked window is the clipped window filtered by the mask (3-D). -/
lemma specWin3_eq_filter (image kernel : List (List (List ℚ)))
    (mask : List (List (List Bool))) (i j k : ℕ) :
    specWin3 image kernel mask i j k
      = (specBox3 image kernel i j k).filter
          fun c => ((mask.getD c.1 []).getD c.2.1 []).getD c.2.2 true = false := rfl

/-- A spec cell is NaN exactly when its `div` vanishes (1-D). -/
lemma specCell1_eq_none_iff (image kernel : List ℚ) (mask : List Bool)
    (idx : ℕ) :
    specCell1 image kernel mask idx = none ↔ specDiv1 image kernel mask idx = 0 := by
  unfold specCell1
  split <;> simp_all

/-- A spec cell is NaN exactly when its `div` vanishes (2-D). -/
lemma specCell2_eq_none_iff (image kernel : List (List ℚ))
    (mask : List (List Bool)) (i j : ℕ) :
    specCell2 image kernel mask i j = none ↔ specDiv2 image kernel mask i j = 0 := by
  unfold specCell2
  split <;> simp_all

/-- A spec cell is NaN exactly when its `div` vanishes (3-D). -/
lemma specCell3_eq_none_iff (image kernel : List (List (List ℚ)))
    (mask : List (List (List Bool))) (i j k : ℕ) :
    specCell3 image kernel mask i j k = none
      ↔ specDiv3 image kernel mask i j k = 0 := by
  unfold specCell3
  split <;> simp_all

/-- If every clipped-window cell is masked, `div = 0` (1-D). -/
lemma specDiv1_eq_zero_of_all_masked (image kernel : List ℚ) (mask : List Bool)
    (idx : ℕ) (h : ∀ c ∈ specBox1 image kernel idx, mask.getD c true = true) :
    specDiv1 image kernel mask idx = 0 := by
  unfold specDiv1
  rw [specWin1_eq_filter, Finset.filter_false_of_mem, Finset.sum_empty]
  intro c hc
  rw [h c hc]
  simp

/-- If every clipped-window cell is masked, `div = 0` (2-D). -/
lemma specDiv2_eq_zero_of_all_masked (image kernel : List (List ℚ))
    (mask : List (List Bool)) (i j : ℕ)
    (h : ∀ c ∈ specBox2 image kernel i j,
      (mask.getD c.1 []).getD c.2 true = true) :
    specDiv2 image kernel mask i j = 0 := by
  unfold specDiv2
  rw [specWin2_eq_filter, Finset.filter_false_of_mem, Finset.sum_empty]
  intro c hc
  rw [h c hc]
  simp

/-- If every clipped-window cell is masked, `div = 0` (3-D). -/
lemma specDiv3_eq_zero_of_all_masked (image kernel : List (List (List ℚ)))
    (mask : List (List (List Bool))) (i j k : ℕ)
    (h : ∀ c ∈ specBox3 image kernel i j k,
      ((mask.getD c.1 []).getD c.2.1 []).getD c.2.2 true = true) :
    specDiv3 image kernel mask i j k = 0 := by
  unfold specDiv3
  rw [specWin3_eq_filter, Finset.filter_false_of_mem, Finset.sum_empty]
  intro c hc
  rw [h c hc]
  simp

/-- Cell `i` of a valid 1-D convolution call: the spec cell, multiplied by the
kernel sum when rescaling. -/
lemma outCell1_convolve (a k : List ℚ) (q : List Bool) (r : Bool) (i : ℕ)
    (hq : q.length = a.length) (hk : k.length % 2 = 1) (hi : i < a.length) :
    outCell1 (convolve_with_mask (.d1 a) (.d1 k) (some (.m1 q)) r) i
      = if r then (specCell1 a k q i).map fun x => k.sum * x
        else specCell1 a k q i := by
  rw [convolve_d1_eq a k q r hq hk]
  cases r
  · simp only [Bool.false_eq_true, if_false, outCell1, convolve_with_mask_1d]
    rw [getD_map_range _ _ _ hi]
    exact convCell1_eq_specCell1 a k q i
  · simp only [if_true, outCell1, scaleRes, convolve_with_mask_1d, List.map_map]
    rw [getD_map_range _ _ _ hi]
    simp [Function.comp, convCell1_eq_specCell1]

/-- Cell `(i, j)` of a valid 2-D convolution call. -/
lemma outCell2_convolve (a k : List (List ℚ)) (q : List (List Bool)) (r : Bool)
    (i j : ℕ) (hq1 : q.length = a.length)
    (hq2 : (q.headD []).length = (a.headD []).length)
    (hk1 : k.length % 2 = 1) (hk2 : (k.headD []).length % 2 = 1)
    (hi : i < a.length) (hj : j < (a.headD []).length) :
    outCell2 (convolve_with_mask (.d2 a) (.d2 k) (some (.m2 q)) r) i j
      = if r then (specCell2 a k q i j).map fun x => NDArr.total (.d2 k) * x
        else specCell2 a k q i j := by
  rw [convolve_d2_eq a k q r hq1 hq2 hk1 hk2]
  cases r
  · simp only [Bool.false_eq_true, if_false, outCell2, convolve_with_mask_2d]
    rw [getD_map_range _ _ _ hi, getD_map_range _ _ _ hj]
    exact convCell2_eq_specCell2 a k q i j
  · simp only [if_true, outCell2, scaleRes, convolve_with_mask_2d, List.map_map]
    rw [getD_map_range _ _ _ hi]
    simp only [Function.comp, List.map_map]
    rw [getD_map_range _ _ _ hj]
    simp [Function.comp, convCell2_eq_specCell2]

/-- Cell `(i, j, k)` of a valid 3-D convolution call. -/
lemma outCell3_convolve (a k : List (List (List ℚ))) (q : List (List (List Bool)))
    (r : Bool) (i j l : ℕ) (hq1 : q.length = a.length)
    (hq2 : (q.headD []).length = (a.headD []).length)
    (hq3 : ((q.headD []).headD []).length = ((a.headD []).headD []).length)
    (hk1 : k.length % 2 = 1) (hk2 : (k.headD []).length % 2 = 1)
    (hk3 : ((k.headD []).headD []).length % 2 = 1)
    (hi : i < a.length) (hj : j < (a.headD []).length)
    (hl : l < ((a.headD []).headD []).length) :
    outCell3 (convolve_with_mask (.d3 a) (.d3 k) (some (.m3 q)) r) i j l
      = if r then (specCell3 a k q i j l).map fun x => NDArr.total (.d3 k) * x
        else specCell3 a k q i j l := by
  rw [convolve_d3_eq a k q r hq1 hq2 hq3 hk1 hk2 hk3]
  cases r
  · simp only [Bool.false_eq_true, if_false, outCell3, convolve_with_mask_3d]
    rw [getD_map_range _ _ _ hi, getD_map_range _ _ _ hj, getD_map_range _ _ _ hl]
    exact convCell3_eq_specCell3 a k q i j l
  · simp only [if_true, outCell3, scaleRes, convolve_with_mask_3d, List.map_map]
    rw [getD_map_range _ _ _ hi]
    simp only [Function.comp, List.map_map]
    rw [getD_map_range _ _ _ hj]
    simp only [Function.comp, List.map_map]
    rw [getD_map_range _ _ _ hl]
    simp [Function.comp, convCell3_eq_specCell3]

/-- Cell `(i, j)` of a valid 2-D interpolation call: the spec's §4.3 cell. -/
lemma outCell2_interpolate (a k : List (List ℚ)) (q : List (List Bool))
    (i j : ℕ) (hq1 : q.length = a.length)
    (hq2 : (q.headD []).length = (a.headD []).length)
    (hk1 : k.length % 2 = 1) (hk2 : (k.headD []).length % 2 = 1)
    (hi : i < a.length) (hj : j < (a.headD []).length) :
    outCell2 (interpolate_mask (.d2 a) (.d2 k) (some (.m2 q))) i j
      = specInterpCell2 a k q i j := by
  rw [interpolate_d2_eq a k q hq1 hq2 hk1 hk2]
  simp only [outCell2, interpolate_mask_2d]
  rw [getD_map_range _ _ _ hi, getD_map_range _ _ _ hj]
  exact interpCell2_eq_specInterpCell2 a k q i j

/-- C3 is false as stated: with array `[5, 7]`, kernel `[1, -1, 1]` and an
all-false mask, cell 0's clipped window `{0, 1}` contains unmasked cells
(0 is in the unmasked window set), yet the output cell is NaN, because the
kernel weights over the window cancel: `div = -1 + 1 = 0`. -/
theorem claim_C3_counterexample :
    convolve_with_mask (.d1 [5, 7]) (.d1 [1, -1, 1]) (some (.m1 [false, false]))
        false = .ok (.r1 [none, none])
      ∧ (0 : ℕ) ∈ specWin1 [5, 7] [1, -1, 1] [false, false] 0 := by
  constructor
  · rw [convolve_d1_eq [5, 7] [1, -1, 1] [false, false] false rfl (by decide)]
    norm_num [convolve_with_mask_1d, convCell1, List.range_succ, List.range']
  · decide

/-- C3 (amended): an output cell of `convolve_with_mask` (any rank, either
`rescale_kernel`) or of a masked `interpolate_mask` cell is NaN exactly when
the accumulated kernel-weight sum `div` over the unmasked cells of its clipped
window is zero; in particular it is NaN whenever every cell of the clipped
window is masked (off-grid cells being excluded by clipping), and the call
itself still succeeds — the NaN is confined to that cell. -/
theorem claim_C3_amended
    (a1 k1 : List ℚ) (q1 : List Bool) (rA : Bool) (i1 : ℕ)
    (hq1 : q1.length = a1.length) (hk1 : k1.length % 2 = 1)
    (hi1 : i1 < a1.length)
    (a2 k2 : List (List ℚ)) (q2 : List (List Bool)) (rB : Bool) (i2 j2 : ℕ)
    (hq21 : q2.length = a2.length)
    (hq22 : (q2.headD []).length = (a2.headD []).length)
    (hk21 : k2.length % 2 = 1) (hk22 : (k2.headD []).length % 2 = 1)
    (hi2 : i2 < a2.length) (hj2 : j2 < (a2.headD []).length)
    (a3 k3 : List (List (List ℚ))) (q3 : List (List (List Bool))) (rC : Bool)
    (i3 j3 l3 : ℕ)
    (hq31 : q3.length = a3.length)
    (hq32 : (q3.headD []).length = (a3.headD []).length)
    (hq33 : ((q3.headD []).headD []).length = ((a3.headD []).headD []).length)
    (hk31 : k3.length % 2 = 1) (hk32 : (k3.headD []).length % 2 = 1)
    (hk33 : ((k3.headD []).headD []).length % 2 = 1)
    (hi3 : i3 < a3.length) (hj3 : j3 < (a3.headD []).length)
    (hl3 : l3 < ((a3.headD []).headD []).length)
    (ax kx : List (List ℚ)) (qx : List (List Bool)) (ix jx : ℕ)
    (hqx1 : qx.length = ax.length)
    (hqx2 : (qx.headD []).length = (ax.headD []).length)
    (hkx1 : kx.length % 2 = 1) (hkx2 : (kx.headD []).length % 2 = 1)
    (hix : ix < ax.length) (hjx : jx < (ax.headD []).length) :
    ((∃ res, convolve_with_mask (.d1 a1) (.d1 k1) (some (.m1 q1)) rA
        = Except.ok res)
      ∧ (outCell1 (convolve_with_mask (.d1 a1) (.d1 k1) (some (.m1 q1)) rA) i1
            = none ↔ specDiv1 a1 k1 q1 i1 = 0)
      ∧ ((∀ c ∈ specBox1 a1 k1 i1, q1.getD c true = true) →
          specDiv1 a1 k1 q1 i1 = 0))
    ∧ ((outCell2 (convolve_with_mask (.d2 a2) (.d2 k2) (some (.m2 q2)) rB) i2 j2
            = none ↔ specDiv2 a2 k2 q2 i2 j2 = 0)
      ∧ ((∀ c ∈ specBox2 a2 k2 i2 j2, (q2.getD c.1 []).getD c.2 true = true) →
          specDiv2 a2 k2 q2 i2 j2 = 0))
    ∧ ((outCell3 (convolve_with_mask (.d3 a3) (.d3 k3) (some (.m3 q3)) rC)
            i3 j3 l3 = none ↔ specDiv3 a3 k3 q3 i3 j3 l3 = 0)
      ∧ ((∀ c ∈ specBox3 a3 k3 i3 j3 l3,
            ((q3.getD c.1 []).getD c.2.1 []).getD c.2.2 true = true) →
          specDiv3 a3 k3 q3 i3 j3 l3 = 0))
    ∧ ((qx.getD ix []).getD jx true = true →
        ((outCell2 (interpolate_mask (.d2 ax) (.d2 kx) (some (.m2 qx))) ix jx
            = none ↔ specDiv2 ax kx qx ix jx = 0)
          ∧ ((∀ c ∈ specBox2 ax kx ix jx,
                (qx.getD c.1 []).getD c.2 true = true) →
              specDiv2 ax kx qx ix jx = 0))) := by
  refine ⟨⟨⟨_, convolve_d1_eq a1 k1 q1 rA hq1 hk1⟩, ?_, ?_⟩, ⟨?_, ?_⟩, ⟨?_, ?_⟩, ?_⟩
  · rw [outCell1_convolve a1 k1 q1 rA i1 hq1 hk1 hi1]
    cases rA
    · simpa using specCell1_eq_none_iff a1 k1 q1 i1
    · simp only [if_true, Option.map_eq_none']
      exact specCell1_eq_none_iff a1 k1 q1 i1
  · exact specDiv1_eq_zero_of_all_masked a1 k1 q1 i1
  · rw [outCell2_convolve a2 k2 q2 rB i2 j2 hq21 hq22 hk21 hk22 hi2 hj2]
    cases rB
    · simpa using specCell2_eq_none_iff a2 k2 q2 i2 j2
    · simp only [if_true, Option.map_eq_none']
      exact specCell2_eq_none_iff a2 k2 q2 i2 j2
  · exact specDiv2_eq_zero_of_all_masked a2 k2 q2 i2 j2
  · rw [outCell3_convolve a3 k3 q3 rC i3 j3 l3 hq31 hq32 hq33 hk31 hk32 hk33
      hi3 hj3 hl3]
    cases rC
    · simpa using specCell3_eq_none_iff a3 k3 q3 i3 j3 l3
    · simp only [if_true, Option.map_eq_none']
      exact specCell3_eq_none_iff a3 k3 q3 i3 j3 l3
  · exact specDiv3_eq_zero_of_all_masked a3 k3 q3 i3 j3 l3
  · intro hmask
    rw [outCell2_interpolate ax kx qx ix jx hqx1 hqx2 hkx1 hkx2 hix hjx]
    refine ⟨?_, specDiv2_eq_zero_of_all_masked ax kx qx ix jx⟩
    rw [specInterpCell2, if_pos hmask]
    exact specCell2_eq_none_iff ax kx qx ix jx

/-- Point update of a nested-list 2-D array: `a[i][j] := v`. -/
def set2 (a : List (List ℚ)) (i j : ℕ) (v : ℚ) : List (List ℚ) :=
  a.set i ((a.getD i []).set j v)

/-- `getD` after `set` at a different index. -/
lemma getD_set_ne {α : Type} (l : List α) (j n : ℕ) (v d : α) (h : j ≠ n) :
    (l.set j v).getD n d = l.getD n d := by
  rw [List.getD_eq_getElem?_getD, List.getD_eq_getElem?_getD,
    List.getElem?_set_ne h]

/-- `getD` after `set` at the same index. -/
lemma getD_set_self {α : Type} (l : List α) (j : ℕ) (v d : α) :
    (l.set j v).getD j d = if j < l.length then v else d := by
  rw [List.getD_eq_getElem?_getD, List.getElem?_set_self']
  rcases Nat.lt_or_ge j l.length with h | h
  · rw [List.getElem?_eq_getElem h]
    simp [h]
  · rw [List.getElem?_eq_none (by omega)]
    simp [Nat.not_lt.mpr h]

/-- `set2` preserves the outer length. -/
lemma set2_length (a : List (List ℚ)) (i j : ℕ) (v : ℚ) :
    (set2 a i j v).length = a.length := by
  simp [set2]

/-- `set2` preserves the length of the leading row (so the numpy shape). -/
lemma set2_headD_length (a : List (List ℚ)) (i j : ℕ) (v : ℚ) :
    ((set2 a i j v).headD []).length = (a.headD []).length := by
  unfold set2
  cases a with
  | nil => simp
  | cons h t =>
      cases i with
      | zero => simp
      | succ n => simp

/-- Reading `set2 a i j v` anywhere except `(i, j)` reads `a`. -/
lemma getD_set2_ne (a : List (List ℚ)) (i j : ℕ) (v : ℚ) (c : ℕ × ℕ)
    (hne : c ≠ (i, j)) :
    ((set2 a i j v).getD c.1 []).getD c.2 0 = (a.getD c.1 []).getD c.2 0 := by
  rcases c with ⟨ci, cj⟩
  unfold set2
  by_cases hci : ci = i
  · subst hci
    have hcj : cj ≠ j := by
      intro h
      exact hne (by rw [h])
    rw [List.getD_eq_getElem?_getD ((a.set ci _)) ci, List.getElem?_set_self']
    rcases Nat.lt_or_ge ci a.length with h | h
    · rw [List.getElem?_eq_getElem h]
      simpa using (getD_set_ne (a.getD ci []) j cj v 0 (fun hh => hcj hh.symm))
    · rw [List.getElem?_eq_none (by omega)]
      have h2 : a[ci]? = (none : Option (List ℚ)) :=
        List.getElem?_eq_none (by omega)
      simp [h2]
  · rw [List.getD_eq_getElem?_getD ((a.set i _)) ci,
      List.getElem?_set_ne (fun hh => hci hh.symm), ← List.getD_eq_getElem?_getD]

/-- The spec window is unchanged by a point update of the image (it depends on
the image only through its shape). -/
lemma specWin2_set2 (a k : List (List ℚ)) (q : List (List Bool)) (i j : ℕ)
    (v : ℚ) (ci cj : ℕ) :
    specWin2 (set2 a i j v) k q ci cj = specWin2 a k q ci cj := by
  simp only [specWin2, set2_length, set2_headD_length]

/-- Updating the masked centre cell changes neither `div` nor `num` of its own
window (the centre is skipped by the mask condition). -/
lemma specCell2_set2 (a k : List (List ℚ)) (q : List (List Bool)) (i j : ℕ)
    (v : ℚ) (hmask : (q.getD i []).getD j true = true) :
    specCell2 (set2 a i j v) k q i j = specCell2 a k q i j := by
  have hdiv : specDiv2 (set2 a i j v) k q i j = specDiv2 a k q i j := by
    unfold specDiv2
    rw [specWin2_set2]
  have hnum : specNum2 (set2 a i j v) k q i j = specNum2 a k q i j := by
    unfold specNum2
    rw [specWin2_set2]
    refine Finset.sum_congr rfl fun c hc => ?_
    have hcmask : (q.getD c.1 []).getD c.2 true = false := by
      rw [specWin2_eq_filter] at hc
      exact (Finset.mem_filter.mp hc).2
    have hne : c ≠ (i, j) := by
      intro h
      rw [h] at hcmask
      simp only [hmask] at hcmask
      cases hcmask
    rw [getD_set2_ne a i j v c hne]
  unfold specCell2
  rw [hdiv, hnum]

/-- C2: for every valid 2-D input, `interpolate_mask` returns the array whose
unmasked cells are the input values unchanged and whose masked cells are the
clipped-window masked weighted average `num / div` (NaN when `div = 0`), with
no global kernel-sum rescale; moreover a masked cell's own value never
contributes to its replacement: overwriting it with any value leaves its
output cell unchanged. -/
theorem claim_C2 (a k : List (List ℚ)) (q : List (List Bool))
    (hq1 : q.length = a.length)
    (hq2 : (q.headD []).length = (a.headD []).length)
    (hk1 : k.length % 2 = 1) (hk2 : (k.headD []).length % 2 = 1) :
    interpolate_mask (.d2 a) (.d2 k) (some (.m2 q))
        = .ok (.r2 ((List.range a.length).map fun i =>
            (List.range (a.headD []).length).map (specInterpCell2 a k q i)))
      ∧ (∀ i j : ℕ, ∀ v : ℚ, i < a.length → j < (a.headD []).length →
          (q.getD i []).getD j true = true →
          outCell2 (interpolate_mask (.d2 (set2 a i j v)) (.d2 k) (some (.m2 q)))
              i j
            = outCell2 (interpolate_mask (.d2 a) (.d2 k) (some (.m2 q))) i j) := by
  constructor
  · rw [interpolate_d2_eq a k q hq1 hq2 hk1 hk2]
    have h : interpCell2 a k q = specInterpCell2 a k q :=
      funext fun i => funext fun j => interpCell2_eq_specInterpCell2 a k q i j
    simp [interpolate_mask_2d, h]
  · intro i j v hi hj hmask
    rw [outCell2_interpolate a k q i j hq1 hq2 hk1 hk2 hi hj]
    rw [outCell2_interpolate (set2 a i j v) k q i j
      (by rw [hq1, set2_length]) (by rw [hq2, set2_headD_length])
      hk1 hk2 (by rw [set2_length]; exact hi)
      (by rw [set2_headD_length]; exact hj)]
    unfold specInterpCell2
    rw [if_pos hmask, if_pos hmask, specCell2_set2 a k q i j v hmask]

/-- Mask that is true exactly at index `k` (when `k < n`). -/
def singleMask (n k : ℕ) : List Bool := (List.replicate n false).set k true

/-- Mask that is true exactly at `m - 1`, `m`, `m + 1` (when in range). -/
def tripleMask (n m : ℕ) : List Bool :=
  (((List.replicate n false).set (m - 1) true).set m true).set (m + 1) true

/-- `getD` on an in-range index of `replicate`. -/
lemma getD_replicate_lt {α : Type} (n i : ℕ) (x d : α) (h : i < n) :
    (List.replicate n x).getD i d = x := by
  rw [List.getD_eq_getElem?_getD, List.getElem?_replicate]
  simp [h]

/-- `singleMask` is true at its index. -/
lemma singleMask_self (n k : ℕ) (h : k < n) :
    (singleMask n k).getD k true = true := by
  unfold singleMask
  rw [getD_set_self]
  simp [h]

/-- `singleMask` is false elsewhere (in range). -/
lemma singleMask_ne (n k c : ℕ) (h : c ≠ k) (hc : c < n) :
    (singleMask n k).getD c true = false := by
  unfold singleMask
  rw [getD_set_ne _ _ _ _ _ (fun hh => h hh.symm), getD_replicate_lt _ _ _ _ hc]

/-- `tripleMask` is true on its three indices (in range). -/
lemma tripleMask_in (n m c : ℕ) (hm : 1 ≤ m)
    (h : c = m - 1 ∨ c = m ∨ c = m + 1) (hc : c < n) :
    (tripleMask n m).getD c true = true := by
  unfold tripleMask
  rcases h with h | h | h <;> subst h
  · rw [getD_set_ne _ _ _ _ _ (by omega), getD_set_ne _ _ _ _ _ (by omega),
      getD_set_self]
    simp [hc]
  · rw [getD_set_ne _ _ _ _ _ (by omega), getD_set_self]
    simp [hc]
  · rw [getD_set_self]
    simp [hc]

/-- `tripleMask` is false off its three indices (in range). -/
lemma tripleMask_out (n m c : ℕ) (h1 : c ≠ m - 1) (h2 : c ≠ m)
    (h3 : c ≠ m + 1) (hc : c < n) :
    (tripleMask n m).getD c true = false := by
  unfold tripleMask
  rw [getD_set_ne _ _ _ _ _ (by omega), getD_set_ne _ _ _ _ _ (by omega),
    getD_set_ne _ _ _ _ _ (by omega), getD_replicate_lt _ _ _ _ hc]

/-- With kernel `[1, 1, 1]` the spec `div` and `num` of an interior cell are
the three-term masked sums over `i-1, i, i+1`. -/
lemma spec111_eval (a : List ℚ) (mask : List Bool) (i : ℕ) (h0 : 1 ≤ i)
    (h1 : i + 1 < a.length) :
    specDiv1 a [1, 1, 1] mask i
        = ((if mask.getD (i - 1) true = false then 1 else 0)
          + (if mask.getD i true = false then 1 else 0)
          + (if mask.getD (i + 1) true = false then 1 else 0))
      ∧ specNum1 a [1, 1, 1] mask i
        = ((if mask.getD (i - 1) true = false then a.getD (i - 1) 0 else 0)
          + (if mask.getD i true = false then a.getD i 0 else 0)
          + (if mask.getD (i + 1) true = false then a.getD (i + 1) 0 else 0)) := by
  have hbox : specBox1 a [1, 1, 1] i = Finset.Ico (i - 1) (i + 2) := by
    unfold specBox1
    congr 1
    rw [Nat.min_eq_left (by simpa using h1)]
    simp only [List.length_cons, List.length_nil]
  have h3 : i + 2 - (i - 1) = 3 := by omega
  have e0 : i - 1 + 0 = i - 1 := by omega
  have e1 : i - 1 + 1 = i := by omega
  have e2 : i - 1 + 2 = i + 1 := by omega
  have kwa : specKW1 [1, 1, 1] i (i - 1) = 1 := by
    unfold specKW1
    have hidx : ([1, 1, 1] : List ℚ).length / 2 + (i - 1) - i = 0 := by
      simp only [List.length_cons, List.length_nil]
      omega
    rw [hidx]
    rfl
  have kwb : specKW1 [1, 1, 1] i i = 1 := by
    unfold specKW1
    have hidx : ([1, 1, 1] : List ℚ).length / 2 + i - i = 1 := by
      simp only [List.length_cons, List.length_nil]
      omega
    rw [hidx]
    rfl
  have kwc : specKW1 [1, 1, 1] i (i + 1) = 1 := by
    unfold specKW1
    have hidx : ([1, 1, 1] : List ℚ).length / 2 + (i + 1) - i = 2 := by
      simp only [List.length_cons, List.length_nil]
      omega
    rw [hidx]
    rfl
  constructor
  · unfold specDiv1
    rw [specWin1_eq_filter, Finset.sum_filter, hbox,
      Finset.sum_Ico_eq_sum_range, h3, Finset.sum_range_succ,
      Finset.sum_range_succ, Finset.sum_range_succ, Finset.sum_range_zero,
      e0, e1, e2, kwa, kwb, kwc, zero_add]
  · unfold specNum1
    rw [specWin1_eq_filter, Finset.sum_filter, hbox,
      Finset.sum_Ico_eq_sum_range, h3, Finset.sum_range_succ,
      Finset.sum_range_succ, Finset.sum_range_succ, Finset.sum_range_zero,
      e0, e1, e2, kwa, kwb, kwc, zero_add, one_mul, one_mul, one_mul]

/-- C8: 1-D, kernel `[1,1,1]`, `rescale_kernel = True`: masking a single
interior index `k` gives `Output[k] = (a[k-1]+a[k+1])/2*3`; masking three
consecutive interior indices `m-1, m, m+1` gives NaN at the centre `m`, while
the cells at the run's edges average only their one surviving unmasked
neighbour, times 3. -/
theorem claim_C8 (a : List ℚ) (k : ℕ) (hk0 : 1 ≤ k) (hk1 : k + 1 < a.length)
    (b : List ℚ) (m : ℕ) (hm0 : 2 ≤ m) (hm1 : m + 2 < b.length) :
    outCell1 (convolve_with_mask (.d1 a) (.d1 [1, 1, 1])
        (some (.m1 (singleMask a.length k))) true) k
      = some ((a.getD (k - 1) 0 + a.getD (k + 1) 0) / 2 * 3)
    ∧ outCell1 (convolve_with_mask (.d1 b) (.d1 [1, 1, 1])
        (some (.m1 (tripleMask b.length m))) true) m = none
    ∧ outCell1 (convolve_with_mask (.d1 b) (.d1 [1, 1, 1])
        (some (.m1 (tripleMask b.length m))) true) (m - 1)
      = some (b.getD (m - 2) 0 * 3)
    ∧ outCell1 (convolve_with_mask (.d1 b) (.d1 [1, 1, 1])
        (some (.m1 (tripleMask b.length m))) true) (m + 1)
      = some (b.getD (m + 2) 0 * 3) := by
  have hqa : (singleMask a.length k).length = a.length := by
    simp [singleMask]
  have hqb : (tripleMask b.length m).length = b.length := by
    simp [tripleMask]
  have hkk : ([1, 1, 1] : List ℚ).length % 2 = 1 := rfl
  have hsum : ([1, 1, 1] : List ℚ).sum = 3 := by norm_num
  refine ⟨?_, ?_, ?_, ?_⟩
  · rw [outCell1_convolve a [1, 1, 1] (singleMask a.length k) true k hqa hkk
      (by omega), if_pos rfl]
    obtain ⟨hdiv, hnum⟩ := spec111_eval a (singleMask a.length k) k hk0 hk1
    rw [singleMask_ne _ _ _ (by omega) (by omega),
      singleMask_self _ _ (by omega),
      singleMask_ne _ _ _ (by omega) (by omega)] at hdiv hnum
    norm_num at hdiv hnum
    unfold specCell1
    rw [hdiv, hnum, if_neg (by norm_num), hsum, Option.map_some']
    congr 1
    simp only [List.getD_eq_getElem?_getD]
    ring
  · rw [outCell1_convolve b [1, 1, 1] (tripleMask b.length m) true m hqb hkk
      (by omega), if_pos rfl]
    obtain ⟨hdiv, _⟩ := spec111_eval b (tripleMask b.length m) m (by omega)
      (by omega)
    rw [tripleMask_in _ _ _ (by omega) (Or.inl rfl) (by omega),
      tripleMask_in _ _ _ (by omega) (Or.inr (Or.inl rfl)) (by omega),
      tripleMask_in _ _ _ (by omega) (Or.inr (Or.inr rfl)) (by omega)]
      at hdiv
    norm_num at hdiv
    rw [(specCell1_eq_none_iff b [1, 1, 1] (tripleMask b.length m) m).mpr hdiv]
    rfl
  · rw [outCell1_convolve b [1, 1, 1] (tripleMask b.length m) true (m - 1) hqb
      hkk (by omega), if_pos rfl]
    obtain ⟨hdiv, hnum⟩ := spec111_eval b (tripleMask b.length m) (m - 1)
      (by omega) (by omega)
    rw [show m - 1 - 1 = m - 2 from by omega,
      show m - 1 + 1 = m from by omega] at hdiv hnum
    rw [tripleMask_out _ _ _ (by omega) (by omega) (by omega) (by omega),
      tripleMask_in _ _ _ (by omega) (Or.inl rfl) (by omega),
      tripleMask_in _ _ _ (by omega) (Or.inr (Or.inl rfl)) (by omega)]
      at hdiv hnum
    norm_num at hdiv hnum
    unfold specCell1
    rw [hdiv, hnum, if_neg (by norm_num), hsum, Option.map_some']
    congr 1
    simp only [List.getD_eq_getElem?_getD]
    ring
  · rw [outCell1_convolve b [1, 1, 1] (tripleMask b.length m) true (m + 1) hqb
      hkk (by omega), if_pos rfl]
    obtain ⟨hdiv, hnum⟩ := spec111_eval b (tripleMask b.length m) (m + 1)
      (by omega) (by omega)
    rw [show m + 1 - 1 = m from by omega] at hdiv hnum
    rw [tripleMask_in _ _ _ (by omega) (Or.inr (Or.inl rfl)) (by omega),
      tripleMask_in _ _ _ (by omega) (Or.inr (Or.inr rfl)) (by omega),
      tripleMask_out _ _ _ (by omega) (by omega) (by omega) (by omega)]
      at hdiv hnum
    norm_num at hdiv hnum
    unfold specCell1
    rw [hdiv, hnum, if_neg (by norm_num), hsum, Option.map_some']
    congr 1
    simp only [List.getD_eq_getElem?_getD]
    ring

/-- The explicit-mask shape precondition of a call (`True` when no explicit
mask is passed, since the source skips the shape check in that case). -/
def maskShapeOk (array : NDArr) : Option NDMask → Prop
  | none => True
  | some m => m.shape = array.shape

/-- An explicit mask of wrong shape fails validation first. -/
lemma validate_shape_err (array kernel : NDArr) (m : NDMask)
    (h : m.shape ≠ array.shape) :
    validateInputs array kernel (some m) = .error .shapeMismatch := by
  simp only [validateInputs]
  rw [if_pos h]

/-- With acceptable mask and matching ranks, an even kernel axis fails
validation with the even-kernel error. -/
lemma validate_even_err (array kernel : NDArr) (msk : Option NDMask)
    (hm : maskShapeOk array msk) (hd : kernel.ndim = array.ndim)
    (he : (kernel.shape.any fun s => s % 2 = 0) = true) :
    validateInputs array kernel msk = .error .evenKernelShape := by
  cases msk with
  | none =>
      simp only [validateInputs]
      rw [if_neg (by simp [hd]), if_pos he]
  | some m =>
      simp only [validateInputs]
      rw [if_neg (fun hh => hh hm), if_neg (by simp [hd]), if_pos he]

/-- With acceptable mask, matching ranks and odd kernel axes, validation
succeeds and returns the explicit mask (or the synthesized all-false one). -/
lemma validate_ok (array kernel : NDArr) (msk : Option NDMask)
    (hm : maskShapeOk array msk) (hd : kernel.ndim = array.ndim)
    (he : (kernel.shape.any fun s => s % 2 = 0) = false) :
    validateInputs array kernel msk
      = .ok (match msk with | none => zerosMask array | some m => m) := by
  cases msk with
  | none =>
      simp only [validateInputs]
      rw [if_neg (by simp [hd]), if_neg (by simp [he])]
  | some m =>
      simp only [validateInputs]
      rw [if_neg (fun hh => hh hm), if_neg (by simp [hd]),
        if_neg (by simp [he])]

/-- C6: an input violating both the mask-shape and the kernel-rank conditions
always fails with the mask-shape error, in both entry points: the mask-shape
check runs first. -/
theorem claim_C6 (array kernel : NDArr) (m : NDMask) (r : Bool)
    (h1 : m.shape ≠ array.shape) (h2 : kernel.ndim ≠ array.ndim) :
    convolve_with_mask array kernel (some m) r = .error .shapeMismatch
      ∧ interpolate_mask array kernel (some m) = .error .shapeMismatch := by
  constructor
  · rw [convolve_with_mask, validate_shape_err array kernel m h1]
  · rw [interpolate_mask, validate_shape_err array kernel m h1]

/-- C10: the even-kernel check precedes the dimensionality dispatch: a call
whose kernel has an even axis *and* whose rank is unsupported for the
operation fails with the even-kernel error, not the unsupported-dimension
error, in both entry points. -/
theorem claim_C10 (array kernel : NDArr) (msk : Option NDMask) (r : Bool)
    (hm : maskShapeOk array msk) (hd : kernel.ndim = array.ndim)
    (he : (kernel.shape.any fun s => s % 2 = 0) = true)
    (hu : ¬(array.ndim = 1 ∨ array.ndim = 2 ∨ array.ndim = 3))
    (array2 kernel2 : NDArr) (msk2 : Option NDMask)
    (hm2 : maskShapeOk array2 msk2) (hd2 : kernel2.ndim = array2.ndim)
    (he2 : (kernel2.shape.any fun s => s % 2 = 0) = true)
    (hu2 : array2.ndim ≠ 2) :
    convolve_with_mask array kernel msk r = .error .evenKernelShape
      ∧ interpolate_mask array2 kernel2 msk2 = .error .evenKernelShape := by
  constructor
  · rw [convolve_with_mask, validate_even_err array kernel msk hm hd he]
  · rw [interpolate_mask, validate_even_err array2 kernel2 msk2 hm2 hd2 he2]

/-- C7: with validation otherwise passing, `interpolate_mask` fails with the
unsupported-dimension error for every rank other than 2, while
`convolve_with_mask` succeeds exactly on ranks 1, 2, 3 and fails with the
unsupported-dimension error only outside that set. -/
theorem claim_C7 (array kernel : NDArr) (msk : Option NDMask) (r : Bool)
    (hm : maskShapeOk array msk) (hd : kernel.ndim = array.ndim)
    (he : (kernel.shape.any fun s => s % 2 = 0) = false) :
    (array.ndim ≠ 2 →
        interpolate_mask array kernel msk = .error .unsupportedDimension)
      ∧ (¬(array.ndim = 1 ∨ array.ndim = 2 ∨ array.ndim = 3) →
          convolve_with_mask array kernel msk r = .error .unsupportedDimension)
      ∧ ((array.ndim = 1 ∨ array.ndim = 2 ∨ array.ndim = 3) →
          ∃ res, convolve_with_mask array kernel msk r = Except.ok res) := by
  have hv := validate_ok array kernel msk hm hd he
  refine ⟨?_, ?_, ?_⟩
  · intro h2
    rw [interpolate_mask, hv]
    cases array with
    | d2 a => exact absurd rfl h2
    | d0 x => cases msk <;> cases kernel <;> rfl
    | d1 a => cases msk <;> cases kernel <;> rfl
    | d3 a => cases msk <;> cases kernel <;> rfl
    | d4 a => cases msk <;> cases kernel <;> rfl
  · intro hu
    rw [convolve_with_mask, hv]
    cases array with
    | d0 x => cases msk <;> cases kernel <;> rfl
    | d4 a => cases msk <;> cases kernel <;> rfl
    | d1 a => exact absurd (Or.inl rfl) hu
    | d2 a => exact absurd (Or.inr (Or.inl rfl)) hu
    | d3 a => exact absurd (Or.inr (Or.inr rfl)) hu
  · intro hs
    rw [convolve_with_mask, hv]
    cases array with
    | d0 x => simp [NDArr.ndim, NDArr.shape] at hs
    | d4 a => simp [NDArr.ndim, NDArr.shape] at hs
    | d1 a =>
        cases kernel <;> simp [NDArr.ndim, NDArr.shape] at hd
        cases msk with
        | none => exact ⟨_, rfl⟩
        | some m =>
            cases m <;> simp [maskShapeOk, NDMask.shape, NDArr.shape] at hm
            exact ⟨_, rfl⟩
    | d2 a =>
        cases kernel <;> simp [NDArr.ndim, NDArr.shape] at hd
        cases msk with
        | none => exact ⟨_, rfl⟩
        | some m =>
            cases m <;> simp [maskShapeOk, NDMask.shape, NDArr.shape] at hm
            exact ⟨_, rfl⟩
    | d3 a =>
        cases kernel <;> simp [NDArr.ndim, NDArr.shape] at hd
        cases msk with
        | none => exact ⟨_, rfl⟩
        | some m =>
            cases m <;> simp [maskShapeOk, NDMask.shape, NDArr.shape] at hm
            exact ⟨_, rfl⟩

/-- Observation: numpy shape of the array returned by a call (`none` when the
call failed). -/
def outShape (e : Except PyErr NDRes) : Option (List ℕ) :=
  match e with
  | .ok res => some res.shape
  | .error _ => none

/-- Scaling a result leaves its shape unchanged. -/
lemma scaleRes_shape (c : ℚ) (res : NDRes) : (scaleRes c res).shape = res.shape := by
  cases res with
  | r1 a => simp [scaleRes, NDRes.shape]
  | r2 a => cases a <;> simp [scaleRes, NDRes.shape]
  | r3 a =>
      cases a with
      | nil => simp [scaleRes, NDRes.shape]
      | cons h t => cases h <;> simp [scaleRes, NDRes.shape]

/-- The head of a map over `List.range n`, `0 < n`. -/
lemma headD_map_range {α : Type} (f : ℕ → α) (n : ℕ) (h : 0 < n) (d : α) :
    ((List.range n).map f).headD d = f 0 := by
  obtain ⟨m, rfl⟩ := Nat.exists_eq_add_of_lt h
  rw [List.range_succ_eq_map]
  simp

/-- The head of `List.range n`, `0 < n`. -/
lemma head?_range (n : ℕ) (h : 0 < n) : (List.range n).head? = some 0 := by
  obtain ⟨m, rfl⟩ := Nat.exists_eq_add_of_lt h
  rw [List.range_succ_eq_map]
  rfl

/-- Shape of a conditional rescale. -/
lemma ite_scaleRes_shape (r : Bool) (c : ℚ) (res : NDRes) :
    (if r then scaleRes c res else res).shape = res.shape := by
  cases r
  · simp
  · simp [scaleRes_shape]

/-- C4: for every valid input to `convolve_with_mask` (any rank, any
`rescale_kernel`) and to `interpolate_mask`, the call succeeds and the
returned array has exactly the numpy shape of the input array.  (In this
model the output is a freshly built value by construction, and its cells are
quotients of rationals — the model of floating-point values.) -/
theorem claim_C4
    (a1 k1 : List ℚ) (q1 : List Bool) (rA : Bool)
    (hq1 : q1.length = a1.length) (hk1 : k1.length % 2 = 1)
    (a2 k2 : List (List ℚ)) (q2 : List (List Bool)) (rB : Bool)
    (hq21 : q2.length = a2.length)
    (hq22 : (q2.headD []).length = (a2.headD []).length)
    (hk21 : k2.length % 2 = 1) (hk22 : (k2.headD []).length % 2 = 1)
    (ha2 : 0 < a2.length)
    (a3 k3 : List (List (List ℚ))) (q3 : List (List (List Bool))) (rC : Bool)
    (hq31 : q3.length = a3.length)
    (hq32 : (q3.headD []).length = (a3.headD []).length)
    (hq33 : ((q3.headD []).headD []).length = ((a3.headD []).headD []).length)
    (hk31 : k3.length % 2 = 1) (hk32 : (k3.headD []).length % 2 = 1)
    (hk33 : ((k3.headD []).headD []).length % 2 = 1)
    (ha3 : 0 < a3.length) (hb3 : 0 < (a3.headD []).length)
    (ax kx : List (List ℚ)) (qx : List (List Bool))
    (hqx1 : qx.length = ax.length)
    (hqx2 : (qx.headD []).length = (ax.headD []).length)
    (hkx1 : kx.length % 2 = 1) (hkx2 : (kx.headD []).length % 2 = 1)
    (hax : 0 < ax.length) :
    outShape (convolve_with_mask (.d1 a1) (.d1 k1) (some (.m1 q1)) rA)
        = some (NDArr.shape (.d1 a1))
      ∧ outShape (convolve_with_mask (.d2 a2) (.d2 k2) (some (.m2 q2)) rB)
        = some (NDArr.shape (.d2 a2))
      ∧ outShape (convolve_with_mask (.d3 a3) (.d3 k3) (some (.m3 q3)) rC)
        = some (NDArr.shape (.d3 a3))
      ∧ outShape (interpolate_mask (.d2 ax) (.d2 kx) (some (.m2 qx)))
        = some (NDArr.shape (.d2 ax)) := by
  refine ⟨?_, ?_, ?_, ?_⟩
  · rw [convolve_d1_eq a1 k1 q1 rA hq1 hk1]
    simp only [outShape, ite_scaleRes_shape]
    simp [NDRes.shape, NDArr.shape, convolve_with_mask_1d]
  · rw [convolve_d2_eq a2 k2 q2 rB hq21 hq22 hk21 hk22]
    simp only [outShape, ite_scaleRes_shape]
    simp [NDRes.shape, NDArr.shape, convolve_with_mask_2d, head?_range _ ha2]
  · rw [convolve_d3_eq a3 k3 q3 rC hq31 hq32 hq33 hk31 hk32 hk33]
    simp only [outShape, ite_scaleRes_shape]
    simp [NDRes.shape, NDArr.shape, convolve_with_mask_3d, head?_range _ ha3,
      head?_range _ (show 0 < (a3.head?.getD []).length by
        simpa [List.headD_eq_head?] using hb3)]
  · rw [interpolate_d2_eq ax kx qx hqx1 hqx2 hkx1 hkx2]
    simp [outShape, NDRes.shape, NDArr.shape, interpolate_mask_2d,
      head?_range _ hax]

/-!
State-passing embedding of the imperative loops: each routine allocates
`result = np.zeros_like(image)` and then assigns `result[...] = …` cell by
cell (row by row / plane by plane for the higher ranks), reading `image`,
`kernel` and `mask` and writing only `result`.  The frame theorem below (C9)
shows the loops never write the inputs, and that the final `result` is the
pure routine's value.
-/

/-- The mutable state of one routine invocation: the three read-only inputs
and the output buffer. -/
structure LoopState (ι κ μ ρ : Type) where
  image : ι
  kernel : κ
  mask : μ
  result : List ρ

/-- One iteration of the outer loop: write slot `i` of `result`; the inputs
are only read. -/
def fillStep {ι κ μ ρ : Type} (cellF : ι → κ → μ → ℕ → ρ)
    (s : LoopState ι κ μ ρ) (i : ℕ) : LoopState ι κ μ ρ :=
  { s with result := s.result.set i (cellF s.image s.kernel s.mask i) }

/-- Run the outer loop over `range n` starting from the zero-initialized
output buffer. -/
def fillRun {ι κ μ ρ : Type} (cellF : ι → κ → μ → ℕ → ρ) (image : ι)
    (kernel : κ) (mask : μ) (n : ℕ) (init : List ρ) : LoopState ι κ μ ρ :=
  (List.range n).foldl (fillStep cellF) ⟨image, kernel, mask, init⟩

/-- State-passing `_convolve_with_mask_1d`: cell-by-cell assignment into a
zero buffer (`np.zeros_like` of a float image is all `0.0` cells). -/
def convRun1 (image kernel : List ℚ) (mask : List Bool) :
    LoopState (List ℚ) (List ℚ) (List Bool) (Option ℚ) :=
  fillRun convCell1 image kernel mask image.length
    (List.replicate image.length (some 0))

/-- State-passing `_convolve_with_mask_2d`: the outer `for i` loop writes row
`i`; the inner loops are the pure row computation. -/
def convRun2 (image kernel : List (List ℚ)) (mask : List (List Bool)) :
    LoopState (List (List ℚ)) (List (List ℚ)) (List (List Bool))
      (List (Option ℚ)) :=
  fillRun
    (fun im kr mk i =>
      (List.range (im.headD []).length).map (convCell2 im kr mk i))
    image kernel mask image.length
    (List.replicate image.length
      (List.replicate (image.headD []).length (some 0)))

/-- State-passing `_convolve_with_mask_3d`: the outer `for i` loop writes
plane `i`. -/
def convRun3 (image kernel : List (List (List ℚ)))
    (mask : List (List (List Bool))) :
    LoopState (List (List (List ℚ))) (List (List (List ℚ)))
      (List (List (List Bool))) (List (List (Option ℚ))) :=
  fillRun
    (fun im kr mk i =>
      (List.range (im.headD []).length).map fun j =>
        (List.range ((im.headD []).headD []).length).map (convCell3 im kr mk i j))
    image kernel mask image.length
    (List.replicate image.length
      (List.replicate (image.headD []).length
        (List.replicate ((image.headD []).headD []).length (some 0))))

/-- State-passing `_interpolate_mask_2d`. -/
def interpRun2 (image kernel : List (List ℚ)) (mask : List (List Bool)) :
    LoopState (List (List ℚ)) (List (List ℚ)) (List (List Bool))
      (List (Option ℚ)) :=
  fillRun
    (fun im kr mk i =>
      (List.range (im.headD []).length).map (interpCell2 im kr mk i))
    image kernel mask image.length
    (List.replicate image.length
      (List.replicate (image.headD []).length (some 0)))

/-- Folding `fillStep` never changes the three input fields. -/
lemma foldl_fillStep_fields {ι κ μ ρ : Type} (cellF : ι → κ → μ → ℕ → ρ)
    (L : List ℕ) (s : LoopState ι κ μ ρ) :
    (L.foldl (fillStep cellF) s).image = s.image
      ∧ (L.foldl (fillStep cellF) s).kernel = s.kernel
      ∧ (L.foldl (fillStep cellF) s).mask = s.mask := by
  induction L generalizing s with
  | nil => exact ⟨rfl, rfl, rfl⟩
  | cons x xs ih => exact ih (fillStep cellF s x)

/-- Folding `fillStep` acts on `result` as the plain write loop with the
(unchanging) inputs. -/
lemma foldl_fillStep_result {ι κ μ ρ : Type} (cellF : ι → κ → μ → ℕ → ρ)
    (L : List ℕ) (s : LoopState ι κ μ ρ) :
    (L.foldl (fillStep cellF) s).result
      = L.foldl (fun r i => r.set i (cellF s.image s.kernel s.mask i))
          s.result := by
  induction L generalizing s with
  | nil => rfl
  | cons x xs ih => exact ih (fillStep cellF s x)

/-- The write loop preserves the buffer length. -/
lemma foldl_set_length {α : Type} (f : ℕ → α) (L : List ℕ) (init : List α) :
    (L.foldl (fun r i => r.set i (f i)) init).length = init.length := by
  induction L generalizing init with
  | nil => rfl
  | cons x xs ih => rw [List.foldl_cons, ih, List.length_set]

/-- Slot `j` of the write loop over `range n`. -/
lemma foldl_set_getElem {α : Type} (f : ℕ → α) (n j : ℕ) (init : List α) :
    ((List.range n).foldl (fun r i => r.set i (f i)) init)[j]?
      = if j < n ∧ j < init.length then some (f j) else init[j]? := by
  induction n with
  | zero => simp
  | succ m ih =>
      rw [List.range_succ, List.foldl_append, List.foldl_cons, List.foldl_nil]
      by_cases hj : j = m
      · subst hj
        rw [List.getElem?_set_self', ih]
        rcases Nat.lt_or_ge j init.length with h1 | h1
        · rw [if_neg (by omega), List.getElem?_eq_getElem h1,
            if_pos ⟨by omega, h1⟩]
          rfl
        · rw [if_neg (by omega), List.getElem?_eq_none (by omega),
            if_neg (by omega)]
          rfl
      · rw [List.getElem?_set_ne (fun hh => hj hh.symm), ih]
        by_cases hcond : j < m ∧ j < init.length
        · rw [if_pos hcond, if_pos ⟨by omega, hcond.2⟩]
        · rw [if_neg hcond, if_neg (by omega)]

/-- The write loop over `range n` on a buffer of length `n` produces the map
of the cell function. -/
lemma foldl_set_eq_map {α : Type} (f : ℕ → α) (n : ℕ) (init : List α)
    (h : init.length = n) :
    (List.range n).foldl (fun r i => r.set i (f i)) init
      = (List.range n).map f := by
  apply List.ext_getElem?
  intro j
  rw [foldl_set_getElem]
  by_cases hj : j < n
  · rw [if_pos ⟨hj, by omega⟩, List.getElem?_map, List.getElem?_range hj]
    rfl
  · rw [if_neg (by omega), List.getElem?_eq_none (by omega),
      List.getElem?_eq_none (by simpa using by omega)]

/-- C9: the four imperative loops are pure in their inputs: after a full run
the `image`, `kernel` and `mask` components of the state are the original
inputs unchanged (nothing but `result` is ever written), and the `result`
component is exactly the value of the corresponding pure routine — so equal
inputs always give equal outputs. -/
theorem claim_C9 :
    (∀ (image kernel : List ℚ) (mask : List Bool),
        (convRun1 image kernel mask).image = image
          ∧ (convRun1 image kernel mask).kernel = kernel
          ∧ (convRun1 image kernel mask).mask = mask
          ∧ (convRun1 image kernel mask).result
            = convolve_with_mask_1d image kernel mask)
      ∧ (∀ (image kernel : List (List ℚ)) (mask : List (List Bool)),
          (convRun2 image kernel mask).image = image
            ∧ (convRun2 image kernel mask).kernel = kernel
            ∧ (convRun2 image kernel mask).mask = mask
            ∧ (convRun2 image kernel mask).result
              = convolve_with_mask_2d image kernel mask)
      ∧ (∀ (image kernel : List (List (List ℚ)))
            (mask : List (List (List Bool))),
          (convRun3 image kernel mask).image = image
            ∧ (convRun3 image kernel mask).kernel = kernel
            ∧ (convRun3 image kernel mask).mask = mask
            ∧ (convRun3 image kernel mask).result
              = convolve_with_mask_3d image kernel mask)
      ∧ (∀ (image kernel : List (List ℚ)) (mask : List (List Bool)),
          (interpRun2 image kernel mask).image = image
            ∧ (interpRun2 image kernel mask).kernel = kernel
            ∧ (interpRun2 image kernel mask).mask = mask
            ∧ (interpRun2 image kernel mask).result
              = interpolate_mask_2d image kernel mask) := by
  refine ⟨fun image kernel mask => ?_, fun image kernel mask => ?_,
    fun image kernel mask => ?_, fun image kernel mask => ?_⟩
  · obtain ⟨h1, h2, h3⟩ := foldl_fillStep_fields convCell1
      (List.range image.length) ⟨image, kernel, mask,
        List.replicate image.length (some 0)⟩
    refine ⟨h1, h2, h3, ?_⟩
    rw [convRun1, fillRun, foldl_fillStep_result,
      foldl_set_eq_map _ _ _ (List.length_replicate _ _)]
    rfl
  · obtain ⟨h1, h2, h3⟩ := foldl_fillStep_fields
      (fun im kr mk i =>
        (List.range (im.headD []).length).map (convCell2 im kr mk i))
      (List.range image.length) ⟨image, kernel, mask,
        List.replicate image.length
          (List.replicate (image.headD []).length (some 0))⟩
    refine ⟨h1, h2, h3, ?_⟩
    rw [convRun2, fillRun, foldl_fillStep_result,
      foldl_set_eq_map _ _ _ (List.length_replicate _ _)]
    rfl
  · obtain ⟨h1, h2, h3⟩ := foldl_fillStep_fields
      (fun im kr mk i =>
        (List.range (im.headD []).length).map fun j =>
          (List.range ((im.headD []).headD []).length).map
            (convCell3 im kr mk i j))
      (List.range image.length) ⟨image, kernel, mask,
        List.replicate image.length
          (List.replicate (image.headD []).length
            (List.replicate ((image.headD []).headD []).length (some 0)))⟩
    refine ⟨h1, h2, h3, ?_⟩
    rw [convRun3, fillRun, foldl_fillStep_result,
      foldl_set_eq_map _ _ _ (List.length_replicate _ _)]
    rfl
  · obtain ⟨h1, h2, h3⟩ := foldl_fillStep_fields
      (fun im kr mk i =>
        (List.range (im.headD []).length).map (interpCell2 im kr mk i))
      (List.range image.length) ⟨image, kernel, mask,
        List.replicate image.length
          (List.replicate (image.headD []).length (some 0))⟩
    refine ⟨h1, h2, h3, ?_⟩
    rw [interpRun2, fillRun, foldl_fillStep_result,
      foldl_set_eq_map _ _ _ (List.length_replicate _ _)]
    rfl

/-- Witness for C1 at concrete 1-D/2-D/3-D inputs. -/
theorem claim_C1_witness :
    (([false, false] : List Bool).length = ([1, 2] : List ℚ).length
      ∧ ([1, 1, 1] : List ℚ).length % 2 = 1
      ∧ ([[false, false], [false, false]] : List (List Bool)).length
          = ([[1, 2], [3, 4]] : List (List ℚ)).length
      ∧ (([[false, false], [false, false]] : List (List Bool)).headD []).length
          = (([[1, 2], [3, 4]] : List (List ℚ)).headD []).length
      ∧ ([[1]] : List (List ℚ)).length % 2 = 1
      ∧ (([[1]] : List (List ℚ)).headD []).length % 2 = 1
      ∧ ([[[false]]] : List (List (List Bool))).length
          = ([[[1]]] : List (List (List ℚ))).length
      ∧ (([[[false]]] : List (List (List Bool))).headD []).length
          = (([[[1]]] : List (List (List ℚ))).headD []).length
      ∧ ((([[[false]]] : List (List (List Bool))).headD []).headD []).length
          = ((([[[1]]] : List (List (List ℚ))).headD []).headD []).length
      ∧ ([[[1]]] : List (List (List ℚ))).length % 2 = 1
      ∧ (([[[1]]] : List (List (List ℚ))).headD []).length % 2 = 1
      ∧ ((([[[1]]] : List (List (List ℚ))).headD []).headD []).length % 2 = 1)
    ∧ (convolve_with_mask (.d1 [1, 2]) (.d1 [1, 1, 1])
          (some (.m1 [false, false])) false
        = .ok (.r1 ((List.range ([1, 2] : List ℚ).length).map
            (specCell1 [1, 2] [1, 1, 1] [false, false])))
      ∧ convolve_with_mask (.d2 [[1, 2], [3, 4]]) (.d2 [[1]])
          (some (.m2 [[false, false], [false, false]])) false
        = .ok (.r2 ((List.range ([[1, 2], [3, 4]] : List (List ℚ)).length).map
            fun i =>
              (List.range
                  (([[1, 2], [3, 4]] : List (List ℚ)).headD []).length).map
                (specCell2 [[1, 2], [3, 4]] [[1]]
                  [[false, false], [false, false]] i)))
      ∧ convolve_with_mask (.d3 [[[1]]]) (.d3 [[[1]]]) (some (.m3 [[[false]]]))
          false
        = .ok (.r3 ((List.range ([[[1]]] : List (List (List ℚ))).length).map
            fun i =>
              (List.range
                  (([[[1]]] : List (List (List ℚ))).headD []).length).map
                fun j =>
                  (List.range
                      ((([[[1]]] : List (List (List ℚ))).headD
                        []).headD []).length).map
                    (specCell3 [[[1]]] [[[1]]] [[[false]]] i j)))) :=
  ⟨⟨by decide, by decide, by decide, by decide, by decide, by decide,
    by decide, by decide, by decide, by decide, by decide, by decide⟩,
   claim_C1 [1, 2] [1, 1, 1] [false, false] (by decide) (by decide)
     [[1, 2], [3, 4]] [[1]] [[false, false], [false, false]]
     (by decide) (by decide) (by decide) (by decide)
     [[[1]]] [[[1]]] [[[false]]]
     (by decide) (by decide) (by decide) (by decide) (by decide) (by decide)⟩

/-- Witness for C2 at a concrete 2-D input with one masked cell. -/
theorem claim_C2_witness :
    (([[true, false], [false, false]] : List (List Bool)).length
        = ([[1, 2], [3, 4]] : List (List ℚ)).length
      ∧ (([[true, false], [false, false]] : List (List Bool)).headD []).length
          = (([[1, 2], [3, 4]] : List (List ℚ)).headD []).length
      ∧ ([[1, 1, 1], [1, 1, 1], [1, 1, 1]] : List (List ℚ)).length % 2 = 1
      ∧ (([[1, 1, 1], [1, 1, 1], [1, 1, 1]] : List (List ℚ)).headD
          []).length % 2 = 1)
    ∧ interpolate_mask (.d2 [[1, 2], [3, 4]])
        (.d2 [[1, 1, 1], [1, 1, 1], [1, 1, 1]])
        (some (.m2 [[true, false], [false, false]]))
      = .ok (.r2 ((List.range ([[1, 2], [3, 4]] : List (List ℚ)).length).map
          fun i =>
            (List.range
                (([[1, 2], [3, 4]] : List (List ℚ)).headD []).length).map
              (specInterpCell2 [[1, 2], [3, 4]] [[1, 1, 1], [1, 1, 1], [1, 1, 1]]
                [[true, false], [false, false]] i))) :=
  ⟨⟨by decide, by decide, by decide, by decide⟩,
   (claim_C2 [[1, 2], [3, 4]] [[1, 1, 1], [1, 1, 1], [1, 1, 1]]
     [[true, false], [false, false]]
     (by decide) (by decide) (by decide) (by decide)).1⟩

/-- Witness for the amended C3 at a concrete 1-D input. -/
theorem claim_C3_amended_witness :
    (([false, false] : List Bool).length = ([1, 2] : List ℚ).length
      ∧ ([1, 1, 1] : List ℚ).length % 2 = 1
      ∧ (0 : ℕ) < ([1, 2] : List ℚ).length)
    ∧ (outCell1 (convolve_with_mask (.d1 [1, 2]) (.d1 [1, 1, 1])
          (some (.m1 [false, false])) true) 0 = none
        ↔ specDiv1 [1, 2] [1, 1, 1] [false, false] 0 = 0) :=
  ⟨⟨by decide, by decide, by decide⟩,
   (claim_C3_amended [1, 2] [1, 1, 1] [false, false] true 0
     (by decide) (by decide) (by decide)
     [[1, 2], [3, 4]] [[1]] [[false, false], [false, false]] false 0 1
     (by decide) (by decide) (by decide) (by decide) (by decide) (by decide)
     [[[1]]] [[[1]]] [[[false]]] false 0 0 0
     (by decide) (by decide) (by decide) (by decide) (by decide) (by decide)
     (by decide) (by decide) (by decide)
     [[1, 2], [3, 4]] [[1, 1, 1], [1, 1, 1], [1, 1, 1]]
     [[true, false], [false, false]] 0 0
     (by decide) (by decide) (by decide) (by decide) (by decide)
     (by decide)).1.2.1⟩

/-- Witness for C4 at concrete inputs of every rank. -/
theorem claim_C4_witness :
    (([false, false] : List Bool).length = ([1, 2] : List ℚ).length
      ∧ ([1, 1, 1] : List ℚ).length % 2 = 1
      ∧ (0 : ℕ) < ([[1, 2], [3, 4]] : List (List ℚ)).length
      ∧ (0 : ℕ) < ([[[1]]] : List (List (List ℚ))).length)
    ∧ (outShape (convolve_with_mask (.d1 [1, 2]) (.d1 [1, 1, 1])
          (some (.m1 [false, false])) true)
        = some (NDArr.shape (.d1 [1, 2]))
      ∧ outShape (convolve_with_mask (.d2 [[1, 2], [3, 4]]) (.d2 [[1]])
          (some (.m2 [[false, false], [false, false]])) false)
        = some (NDArr.shape (.d2 [[1, 2], [3, 4]]))
      ∧ outShape (convolve_with_mask (.d3 [[[1]]]) (.d3 [[[1]]])
          (some (.m3 [[[false]]])) true)
        = some (NDArr.shape (.d3 [[[1]]]))
      ∧ outShape (interpolate_mask (.d2 [[1, 2], [3, 4]])
          (.d2 [[1, 1, 1], [1, 1, 1], [1, 1, 1]])
          (some (.m2 [[true, false], [false, false]])))
        = some (NDArr.shape (.d2 [[1, 2], [3, 4]]))) :=
  ⟨⟨by decide, by decide, by decide, by decide⟩,
   claim_C4 [1, 2] [1, 1, 1] [false, false] true (by decide) (by decide)
     [[1, 2], [3, 4]] [[1]] [[false, false], [false, false]] false
     (by decide) (by decide) (by decide) (by decide) (by decide)
     [[[1]]] [[[1]]] [[[false]]] true
     (by decide) (by decide) (by decide) (by decide) (by decide) (by decide)
     (by decide) (by decide)
     [[1, 2], [3, 4]] [[1, 1, 1], [1, 1, 1], [1, 1, 1]]
     [[true, false], [false, false]]
     (by decide) (by decide) (by decide) (by decide) (by decide)⟩

/-- Witness for C6: a mask of the wrong shape together with a kernel of the
wrong rank yields the mask-shape error. -/
theorem claim_C6_witness :
    (NDMask.shape (.m1 [true]) ≠ NDArr.shape (.d1 [1, 2])
      ∧ NDArr.ndim (.d2 [[1]]) ≠ NDArr.ndim (.d1 [1, 2]))
    ∧ (convolve_with_mask (.d1 [1, 2]) (.d2 [[1]]) (some (.m1 [true])) false
        = .error .shapeMismatch
      ∧ interpolate_mask (.d1 [1, 2]) (.d2 [[1]]) (some (.m1 [true]))
        = .error .shapeMismatch) :=
  ⟨⟨by decide, by decide⟩,
   claim_C6 (.d1 [1, 2]) (.d2 [[1]]) (.m1 [true]) false (by decide)
     (by decide)⟩

/-- Witness for C7: a 1-D call that passes validation is rejected by
`interpolate_mask` with the unsupported-dimension error. -/
theorem claim_C7_witness :
    (maskShapeOk (.d1 [1, 2]) (some (.m1 [false, false]))
      ∧ NDArr.ndim (.d1 [1]) = NDArr.ndim (.d1 [1, 2])
      ∧ ((NDArr.shape (.d1 [1])).any fun s => s % 2 = 0) = false)
    ∧ (NDArr.ndim (.d1 [1, 2]) ≠ 2 →
        interpolate_mask (.d1 [1, 2]) (.d1 [1]) (some (.m1 [false, false]))
          = .error .unsupportedDimension) :=
  ⟨⟨rfl, by decide, by decide⟩,
   (claim_C7 (.d1 [1, 2]) (.d1 [1]) (some (.m1 [false, false])) false rfl
     (by decide) (by decide)).1⟩

/-- Witness for C8 at concrete arrays. -/
theorem claim_C8_witness :
    ((1 : ℕ) ≤ 1 ∧ 1 + 1 < ([1, 2, 3] : List ℚ).length
      ∧ (2 : ℕ) ≤ 2 ∧ 2 + 2 < ([1, 2, 3, 4, 5] : List ℚ).length)
    ∧ (outCell1 (convolve_with_mask (.d1 [1, 2, 3]) (.d1 [1, 1, 1])
          (some (.m1 (singleMask ([1, 2, 3] : List ℚ).length 1))) true) 1
        = some ((([1, 2, 3] : List ℚ).getD 0 0
            + ([1, 2, 3] : List ℚ).getD 2 0) / 2 * 3)
      ∧ outCell1 (convolve_with_mask (.d1 [1, 2, 3, 4, 5]) (.d1 [1, 1, 1])
          (some (.m1 (tripleMask ([1, 2, 3, 4, 5] : List ℚ).length 2))) true) 2
        = none
      ∧ outCell1 (convolve_with_mask (.d1 [1, 2, 3, 4, 5]) (.d1 [1, 1, 1])
          (some (.m1 (tripleMask ([1, 2, 3, 4, 5] : List ℚ).length 2))) true) 1
        = some (([1, 2, 3, 4, 5] : List ℚ).getD 0 0 * 3)
      ∧ outCell1 (convolve_with_mask (.d1 [1, 2, 3, 4, 5]) (.d1 [1, 1, 1])
          (some (.m1 (tripleMask ([1, 2, 3, 4, 5] : List ℚ).length 2))) true) 3
        = some (([1, 2, 3, 4, 5] : List ℚ).getD 4 0 * 3)) :=
  ⟨⟨by decide, by decide, by decide, by decide⟩,
   claim_C8 [1, 2, 3] 1 (by decide) (by decide) [1, 2, 3, 4, 5] 2 (by decide)
     (by decide)⟩

/-- Witness for C10: even kernel axes together with unsupported ranks yield
the even-kernel error in both entry points. -/
theorem claim_C10_witness :
    (maskShapeOk (.d4 [[[[1, 2]]]]) none
      ∧ NDArr.ndim (.d4 [[[[1, 2]]]]) = NDArr.ndim (.d4 [[[[1, 2]]]])
      ∧ ((NDArr.shape (.d4 [[[[1, 2]]]])).any fun s => s % 2 = 0) = true
      ∧ ¬(NDArr.ndim (.d4 [[[[1, 2]]]]) = 1
          ∨ NDArr.ndim (.d4 [[[[1, 2]]]]) = 2
          ∨ NDArr.ndim (.d4 [[[[1, 2]]]]) = 3)
      ∧ maskShapeOk (.d1 [1, 2]) none
      ∧ NDArr.ndim (.d1 [1, 2]) = NDArr.ndim (.d1 [1, 2])
      ∧ ((NDArr.shape (.d1 [1, 2])).any fun s => s % 2 = 0) = true
      ∧ NDArr.ndim (.d1 [1, 2]) ≠ 2)
    ∧ (convolve_with_mask (.d4 [[[[1, 2]]]]) (.d4 [[[[1, 2]]]]) none false
        = .error .evenKernelShape
      ∧ interpolate_mask (.d1 [1, 2]) (.d1 [1, 2]) none
        = .error .evenKernelShape) :=
  ⟨⟨trivial, rfl, by decide, by decide, trivial, rfl, by decide, by decide⟩,
   claim_C10 (.d4 [[[[1, 2]]]]) (.d4 [[[[1, 2]]]]) none false trivial rfl
     (by decide) (by decide) (.d1 [1, 2]) (.d1 [1, 2]) none trivial rfl
     (by decide) (by decide)⟩
